import Mathlib

/-!
Verification of the chefs_assistant recipe-management system.

This file is a shallow embedding of the parts of the repository that the
checked properties speak about:

* `src/src/models/ingredient.py` — `Ingredient`, `NutritionInfo`, `PriceInfo`
* `src/src/models/recipe.py` — `Recipe`, `RecipeIngredient`, `RecipeStep`,
  `RecipePhoto` and the nutrition/cost algorithms
* `src/src/utils/recipe_scaling.py` — quantity parsing/scaling/formatting
* `src/src/pages/this_week/session_manager.py` — weekly-plan auto-population
* `src/src/pages/view_recipe/recipe_viewer_components.py` — heading detection

Python floats are modelled as exact rationals (`ℚ`), Python machinery such as
`str.strip`, `float(...)`, `int(...)`, `Fraction(...)` and `dict` is modelled
by executable Lean definitions that follow the library semantics on the value
domains the program uses.  Nondeterministic inputs (generated UUIDs, the
current wall-clock time, random recipe selection) are passed in as explicit
arguments.
-/

namespace ChefsAssistant

/-! ## Python string primitives -/

/-- Characters treated as whitespace by Python's `str.strip()` (ASCII part). -/
def pyIsSpace (c : Char) : Bool :=
  c == ' ' || c == '\t' || c == '\n' || c == '\x0d' || c == '\x0b' || c == '\x0c'

/-- `str.strip()` on a character list. -/
def pyStripList (l : List Char) : List Char :=
  ((l.dropWhile pyIsSpace).reverse.dropWhile pyIsSpace).reverse

/-- Python `str.strip()` (whitespace on both ends). -/
def pyStrip (s : String) : String :=
  String.mk (pyStripList s.data)

/-- Python `str.rstrip(c)` for a single character. -/
def pyRstrip (s : String) (c : Char) : String :=
  String.mk ((s.data.reverse.dropWhile (· == c)).reverse)

/-- Python `str.endswith(t)` (computable on the character lists). -/
def pyEndsWith (s t : String) : Bool :=
  s.data.reverse.take t.data.length == t.data.reverse

/-! ## Heading detection (`recipe_viewer_components.is_ingredient_heading`)

The viewer page treats an ingredient dictionary as a section heading when the
`quantity`/`note`/`rawText` fields are empty (after stripping) and the name
ends with a double space.  The dictionaries carry the four relevant keys; a
missing key defaults to the empty string in the source (`ingredient.get`),
which the typed record absorbs. -/

structure IngredientEntry where
  quantity : String
  note : String
  rawText : String
  name : String
  deriving Repr, DecidableEq

/-- Translation of `is_ingredient_heading` from
`src/src/pages/view_recipe/recipe_viewer_components.py`. -/
def is_ingredient_heading (ingredient : IngredientEntry) : Bool :=
  let quantity := pyStrip ingredient.quantity
  let note := pyStrip ingredient.note
  let raw_text := pyStrip ingredient.rawText
  let name := ingredient.name
  quantity == "" && note == "" && raw_text == "" && pyEndsWith name "  "

/-! ## Weekly-plan manager (`session_manager.WeeklyRecipeManager`)

The weekly plans live in the session store as a dictionary from week key to
the list of recipe dictionaries of that week; the dictionary is modelled as an
association list with Python-`dict` update semantics (update in place, insert
at the end).  Recipe dictionaries themselves are opaque here (`α`). -/

/-- `st.session_state[WEEKLY_PLANS_KEY].get(week_key, [])`, i.e.
`WeeklyRecipeManager.get_recipes_for_week`. -/
def getWeekRecipes {α : Type} (plans : List (String × List α)) (weekKey : String) :
    List α :=
  ((plans.find? (fun p => p.1 == weekKey)).map (fun p => p.2)).getD []

/-- `st.session_state[WEEKLY_PLANS_KEY][week_key] = v` (Python dict assignment:
overwrite the existing entry in place, otherwise append). -/
def setWeekRecipes {α : Type} (plans : List (String × List α)) (weekKey : String)
    (v : List α) : List (String × List α) :=
  if plans.any (fun p => p.1 == weekKey) then
    plans.map (fun p => if p.1 == weekKey then (p.1, v) else p)
  else
    plans ++ [(weekKey, v)]

/-- Translation of `WeeklyRecipeManager.populate_week_with_random_recipes`
(`src/src/pages/this_week/session_manager.py`).  The seasonal/random recipe
selection is nondeterministic (it calls `random`), so the selected list is an
explicit argument `selectedRecipes`; `allRecipes` is the merged recipe pool
returned by `get_all_recipes()`.  Cloud persistence (`save_to_drive`) has no
effect on the plans map and is omitted.  Returns the function's boolean result
together with the updated plans map. -/
def populate_week_with_random_recipes {α : Type} (plans : List (String × List α))
    (weekKey : String) (force : Bool) (allRecipes selectedRecipes : List α) :
    Bool × List (String × List α) :=
  if force = false ∧ (getWeekRecipes plans weekKey).length > 0 then
    (false, plans)
  else if allRecipes.isEmpty then
    (false, plans)
  else if selectedRecipes.isEmpty then
    (false, plans)
  else
    (true, setWeekRecipes plans weekKey selectedRecipes)

/-! ## The `datetime` model

The models import Python's `datetime` library (outside the repository):
constructors default `created_at`/`updated_at` to `datetime.now()`, `to_dict`
serializes with `isoformat()` and the constructor parses ISO strings back with
`datetime.fromisoformat`, falling back to "now" when parsing fails.  Instants
are modelled abstractly; `isoformat` is an injective printable encoding whose
partial inverse `fromisoformat` fails on every string it did not produce (in
particular on the empty string, as the library does). -/

def Datetime := Nat

instance : DecidableEq Datetime := inferInstanceAs (DecidableEq Nat)
instance : Repr Datetime := inferInstanceAs (Repr Nat)
instance (n : Nat) : OfNat Datetime n := inferInstanceAs (OfNat Nat n)

def Datetime.isoformat (d : Datetime) : String :=
  String.mk (List.replicate (Nat.succ d) 'T')

def Datetime.fromisoformat (s : String) : Option Datetime :=
  if s.data ≠ [] ∧ s.data.all (fun c => c == 'T') then some (s.data.length - 1)
  else none

/-! ## Enumerations (`ingredient.py`, `recipe.py`)

Each Python `Enum` gets a `value` map and a partial parser `ofString`
modelling `EnumClass(string)`, which raises `ValueError` (here: `none`) on an
unrecognized value. -/

inductive DifficultyLevel
  | easy
  | medium
  | hard
  deriving Repr, DecidableEq

def DifficultyLevel.value : DifficultyLevel → String
  | .easy => "easy"
  | .medium => "medium"
  | .hard => "hard"

def DifficultyLevel.ofString (s : String) : Option DifficultyLevel :=
  if s = "easy" then some .easy
  else if s = "medium" then some .medium
  else if s = "hard" then some .hard
  else none

inductive MealType
  | breakfast
  | lunch
  | dinner
  | snack
  | dessert
  | appetizer
  | side_dish
  deriving Repr, DecidableEq

def MealType.value : MealType → String
  | .breakfast => "breakfast"
  | .lunch => "lunch"
  | .dinner => "dinner"
  | .snack => "snack"
  | .dessert => "dessert"
  | .appetizer => "appetizer"
  | .side_dish => "side_dish"

def MealType.ofString (s : String) : Option MealType :=
  if s = "breakfast" then some .breakfast
  else if s = "lunch" then some .lunch
  else if s = "dinner" then some .dinner
  else if s = "snack" then some .snack
  else if s = "dessert" then some .dessert
  else if s = "appetizer" then some .appetizer
  else if s = "side_dish" then some .side_dish
  else none

inductive Season
  | spring
  | summer
  | fall
  | winter
  deriving Repr, DecidableEq

def Season.value : Season → String
  | .spring => "spring"
  | .summer => "summer"
  | .fall => "fall"
  | .winter => "winter"

def Season.ofString (s : String) : Option Season :=
  if s = "spring" then some .spring
  else if s = "summer" then some .summer
  else if s = "fall" then some .fall
  else if s = "winter" then some .winter
  else none

inductive StorageType
  | pantry
  | refrigerated
  | freezer
  | room_temperature
  deriving Repr, DecidableEq

def StorageType.value : StorageType → String
  | .pantry => "pantry"
  | .refrigerated => "refrigerated"
  | .freezer => "freezer"
  | .room_temperature => "room_temperature"

def StorageType.ofString (s : String) : Option StorageType :=
  if s = "pantry" then some .pantry
  else if s = "refrigerated" then some .refrigerated
  else if s = "freezer" then some .freezer
  else if s = "room_temperature" then some .room_temperature
  else none

/-! ## Value objects of `ingredient.py`

Python dicts with string keys and numeric values (`vitamins`, `minerals`) are
modelled as association lists with distinct keys kept in insertion order; the
serialized dictionary forms of the dataclasses are separate record types so
that `to_dict`/`from_dict` are honest conversions between distinct shapes. -/

structure NutritionInfo where
  calories : ℚ := 0
  protein : ℚ := 0
  carbs : ℚ := 0
  fat : ℚ := 0
  fiber : ℚ := 0
  sugar : ℚ := 0
  sodium : ℚ := 0
  vitamins : List (String × ℚ) := []
  minerals : List (String × ℚ) := []
  deriving Repr, DecidableEq

structure NutritionDict where
  calories : ℚ := 0
  protein : ℚ := 0
  carbs : ℚ := 0
  fat : ℚ := 0
  fiber : ℚ := 0
  sugar : ℚ := 0
  sodium : ℚ := 0
  vitamins : List (String × ℚ) := []
  minerals : List (String × ℚ) := []
  deriving Repr, DecidableEq

def NutritionInfo.to_dict (n : NutritionInfo) : NutritionDict :=
  { calories := n.calories, protein := n.protein, carbs := n.carbs, fat := n.fat
    fiber := n.fiber, sugar := n.sugar, sodium := n.sodium
    vitamins := n.vitamins, minerals := n.minerals }

def NutritionInfo.from_dict (data : NutritionDict) : NutritionInfo :=
  { calories := data.calories, protein := data.protein, carbs := data.carbs
    fat := data.fat, fiber := data.fiber, sugar := data.sugar
    sodium := data.sodium, vitamins := data.vitamins, minerals := data.minerals }

structure PriceInfo where
  average_price_per_kg : ℚ := 0
  average_price_per_unit : ℚ := 0
  price_updated : Option String := none
  seasonal_price_variation : Bool := false
  typical_package_size : ℚ := 0
  typical_package_unit : String := "kg"
  deriving Repr, DecidableEq

structure PriceDict where
  average_price_per_kg : ℚ := 0
  average_price_per_unit : ℚ := 0
  price_updated : Option String := none
  seasonal_price_variation : Bool := false
  typical_package_size : ℚ := 0
  typical_package_unit : String := "kg"
  deriving Repr, DecidableEq

def PriceInfo.to_dict (p : PriceInfo) : PriceDict :=
  { average_price_per_kg := p.average_price_per_kg
    average_price_per_unit := p.average_price_per_unit
    price_updated := p.price_updated
    seasonal_price_variation := p.seasonal_price_variation
    typical_package_size := p.typical_package_size
    typical_package_unit := p.typical_package_unit }

def PriceInfo.from_dict (data : PriceDict) : PriceInfo :=
  { average_price_per_kg := data.average_price_per_kg
    average_price_per_unit := data.average_price_per_unit
    price_updated := data.price_updated
    seasonal_price_variation := data.seasonal_price_variation
    typical_package_size := data.typical_package_size
    typical_package_unit := data.typical_package_unit }

/-- One `{no, en}` entry of `preparation_methods`. -/
structure PrepMethod where
  no : String
  en : String
  deriving Repr, DecidableEq

/-! ## `Ingredient` -/

/-- The `self.names` map of `Ingredient` (`no`, `en`, `plural_no`,
`plural_en`). -/
structure IngredientNames where
  no : String
  en : String
  plural_no : String := ""
  plural_en : String := ""
  deriving Repr, DecidableEq

/-- The `nutrition` keyword argument: a dict (run through
`NutritionInfo.from_dict`) or an already-built `NutritionInfo`. -/
inductive NutritionArg
  | dict (d : NutritionDict)
  | obj (n : NutritionInfo)
  deriving Repr, DecidableEq

inductive PriceArg
  | dict (d : PriceDict)
  | obj (p : PriceInfo)
  deriving Repr, DecidableEq

/-- The `storage_type` keyword argument: a string (parsed, falling back to
`room_temperature`) or a `StorageType`. -/
inductive StorageArg
  | str (s : String)
  | enum (t : StorageType)
  deriving Repr, DecidableEq

/-- One entry of the `peak_season`/`seasons` keyword arguments: a string
(parsed, invalid entries dropped) or a `Season`. -/
inductive SeasonArg
  | str (s : String)
  | enum (v : Season)
  deriving Repr, DecidableEq

/-- The `**kwargs` accepted by `Ingredient.__init__`, with the source's
defaults. -/
structure IngredientKwargs where
  plural_no : String := ""
  plural_en : String := ""
  aliases : List String := []
  typical_weight_grams : ℚ := 0
  density : ℚ := 1
  edible_portion : ℚ := 1
  common_units : List String := ["stk", "g"]
  preparation_methods : List PrepMethod := []
  nutrition : NutritionArg := .dict {}
  price_info : PriceArg := .dict {}
  flavor_profile : List String := []
  texture : String := ""
  cooking_methods : List String := []
  common_pairings : List String := []
  shelf_life_days : Int := 0
  storage_type : StorageArg := .enum .room_temperature
  peak_season : List SeasonArg := []
  available_year_round : Bool := true
  deriving Repr, DecidableEq

structure Ingredient where
  id : String
  names : IngredientNames
  category : String
  aliases : List String
  typical_weight_grams : ℚ
  density : ℚ
  edible_portion : ℚ
  common_units : List String
  preparation_methods : List PrepMethod
  nutrition : NutritionInfo
  price_info : PriceInfo
  flavor_profile : List String
  texture : String
  cooking_methods : List String
  common_pairings : List String
  shelf_life_days : Int
  storage_type : StorageType
  peak_season : List Season
  available_year_round : Bool
  deriving Repr, DecidableEq

/-- One iteration of the season-list loop shared by `Ingredient.__init__`
(`peak_season`) and `Recipe.__init__` (`seasons`): strings are parsed and
invalid ones dropped, enum members are appended as-is. -/
def seasonStep (acc : List Season) (a : SeasonArg) : List Season :=
  match a with
  | .str s =>
    match Season.ofString s with
    | some v => acc ++ [v]
    | none => acc
  | .enum v => acc ++ [v]

/-- The season-list loop of the two constructors. -/
def parseSeasonList (l : List SeasonArg) : List Season :=
  l.foldl seasonStep []

/-- Translation of `Ingredient.__init__` (`src/src/models/ingredient.py`,
lines 115–200).  The constructor performs **no** validation of
`ingredient_id` or `name_no` — the empty-field `ValueError` in the source
lives only in `Ingredient.from_dict` — so this function is total. -/
def Ingredient.init (ingredient_id : String) (name_no : String)
    (name_en : Option String := none) (category : String := "uncategorized")
    (kwargs : IngredientKwargs := {}) : Ingredient :=
  { id := ingredient_id
    names :=
      { no := name_no
        en :=
          match name_en with
          | some e => if e = "" then name_no else e
          | none => name_no
        plural_no := kwargs.plural_no
        plural_en := kwargs.plural_en }
    category := category
    aliases := kwargs.aliases
    typical_weight_grams := kwargs.typical_weight_grams
    density := kwargs.density
    edible_portion := kwargs.edible_portion
    common_units := kwargs.common_units
    preparation_methods := kwargs.preparation_methods
    nutrition :=
      match kwargs.nutrition with
      | .dict d => NutritionInfo.from_dict d
      | .obj n => n
    price_info :=
      match kwargs.price_info with
      | .dict d => PriceInfo.from_dict d
      | .obj p => p
    flavor_profile := kwargs.flavor_profile
    texture := kwargs.texture
    cooking_methods := kwargs.cooking_methods
    common_pairings := kwargs.common_pairings
    shelf_life_days := kwargs.shelf_life_days
    storage_type :=
      match kwargs.storage_type with
      | .str s => (StorageType.ofString s).getD .room_temperature
      | .enum t => t
    peak_season := parseSeasonList kwargs.peak_season
    available_year_round := kwargs.available_year_round }

/-- The dictionary produced by `Ingredient.to_dict` (typed form of the JSON
shape). -/
structure IngredientDict where
  id : String
  names : IngredientNames
  category : String
  aliases : List String
  typical_weight_grams : ℚ
  density : ℚ
  edible_portion : ℚ
  common_units : List String
  preparation_methods : List PrepMethod
  nutrition : NutritionDict
  price_info : PriceDict
  flavor_profile : List String
  texture : String
  cooking_methods : List String
  common_pairings : List String
  shelf_life_days : Int
  storage_type : String
  peak_season : List String
  available_year_round : Bool
  deriving Repr, DecidableEq

def Ingredient.to_dict (i : Ingredient) : IngredientDict :=
  { id := i.id
    names := i.names
    category := i.category
    aliases := i.aliases
    typical_weight_grams := i.typical_weight_grams
    density := i.density
    edible_portion := i.edible_portion
    common_units := i.common_units
    preparation_methods := i.preparation_methods
    nutrition := i.nutrition.to_dict
    price_info := i.price_info.to_dict
    flavor_profile := i.flavor_profile
    texture := i.texture
    cooking_methods := i.cooking_methods
    common_pairings := i.common_pairings
    shelf_life_days := i.shelf_life_days
    storage_type := i.storage_type.value
    peak_season := i.peak_season.map Season.value
    available_year_round := i.available_year_round }

/-- Translation of `Ingredient.from_dict`.  The kwargs forwarded to the
constructor are `{k: v for k, v in data.items() if k not in ['id', 'names']}`:
the `names` entry is **excluded**, so `plural_no`/`plural_en` are absent from
the kwargs and take the constructor defaults `''`. -/
def Ingredient.from_dict (data : IngredientDict) : Except String Ingredient :=
  let ingredient_id := data.id
  let name_no := data.names.no
  if ingredient_id = "" ∨ name_no = "" then
    .error "Ingredient must have id and Norwegian name"
  else
    let name_en := data.names.en
    .ok (Ingredient.init ingredient_id name_no (some name_en) data.category
      { aliases := data.aliases
        typical_weight_grams := data.typical_weight_grams
        density := data.density
        edible_portion := data.edible_portion
        common_units := data.common_units
        preparation_methods := data.preparation_methods
        nutrition := .dict data.nutrition
        price_info := .dict data.price_info
        flavor_profile := data.flavor_profile
        texture := data.texture
        cooking_methods := data.cooking_methods
        common_pairings := data.common_pairings
        shelf_life_days := data.shelf_life_days
        storage_type := .str data.storage_type
        peak_season := data.peak_season.map .str
        available_year_round := data.available_year_round })

/-! ## `Recipe` and its nested value objects -/

structure RecipePhoto where
  url : String
  alt_text : String := ""
  caption_no : String := ""
  caption_en : String := ""
  is_primary : Bool := false
  deriving Repr, DecidableEq

structure RecipePhotoDict where
  url : String
  alt_text : String := ""
  caption_no : String := ""
  caption_en : String := ""
  is_primary : Bool := false
  deriving Repr, DecidableEq

def RecipePhoto.to_dict (p : RecipePhoto) : RecipePhotoDict :=
  { url := p.url, alt_text := p.alt_text, caption_no := p.caption_no
    caption_en := p.caption_en, is_primary := p.is_primary }

def RecipePhoto.from_dict (data : RecipePhotoDict) : RecipePhoto :=
  { url := data.url, alt_text := data.alt_text, caption_no := data.caption_no
    caption_en := data.caption_en, is_primary := data.is_primary }

structure RecipeStep where
  step_number : Int
  instruction_no : String
  instruction_en : String := ""
  time_minutes : Option Int := none
  temperature_celsius : Option Int := none
  temperature_fahrenheit : Option Int := none
  deriving Repr, DecidableEq

structure RecipeStepDict where
  step_number : Int
  instruction_no : String
  instruction_en : String := ""
  time_minutes : Option Int := none
  temperature_celsius : Option Int := none
  temperature_fahrenheit : Option Int := none
  deriving Repr, DecidableEq

def RecipeStep.to_dict (s : RecipeStep) : RecipeStepDict :=
  { step_number := s.step_number, instruction_no := s.instruction_no
    instruction_en := s.instruction_en, time_minutes := s.time_minutes
    temperature_celsius := s.temperature_celsius
    temperature_fahrenheit := s.temperature_fahrenheit }

def RecipeStep.from_dict (data : RecipeStepDict) : RecipeStep :=
  { step_number := data.step_number, instruction_no := data.instruction_no
    instruction_en := data.instruction_en, time_minutes := data.time_minutes
    temperature_celsius := data.temperature_celsius
    temperature_fahrenheit := data.temperature_fahrenheit }

/-- `RecipeIngredient`: the bridge between a recipe and the ingredient
catalog.  `ingredient` is the optional hydrated reference (not serialized). -/
structure RecipeIngredient where
  ingredient_id : String
  quantity : String := ""
  unit : String := ""
  preparation : String := ""
  note : String := ""
  optional : Bool := false
  group : String := ""
  ingredient : Option Ingredient := none
  deriving Repr, DecidableEq

structure RecipeIngredientDict where
  ingredient_id : String
  quantity : String := ""
  unit : String := ""
  preparation : String := ""
  note : String := ""
  optional : Bool := false
  group : String := ""
  deriving Repr, DecidableEq

def RecipeIngredient.to_dict (r : RecipeIngredient) : RecipeIngredientDict :=
  { ingredient_id := r.ingredient_id, quantity := r.quantity, unit := r.unit
    preparation := r.preparation, note := r.note, optional := r.optional
    group := r.group }

def RecipeIngredient.from_dict (data : RecipeIngredientDict) : RecipeIngredient :=
  { ingredient_id := data.ingredient_id, quantity := data.quantity
    unit := data.unit, preparation := data.preparation, note := data.note
    optional := data.optional, group := data.group, ingredient := none }

/-- The `self.names` map of `Recipe`. -/
structure RecipeNames where
  no : String
  en : String := ""
  description_no : String := ""
  description_en : String := ""
  deriving Repr, DecidableEq

structure Recipe where
  id : String
  names : RecipeNames
  recipe_ingredients : List RecipeIngredient
  preparation_steps : List RecipeStep
  prep_time_minutes : Int
  cook_time_minutes : Int
  rest_time_minutes : Int
  servings : Int
  yield_amount : ℚ
  yield_unit : String
  produces_ingredient : Bool
  produced_ingredient_id : String
  categories : List String
  tags : List String
  difficulty : DifficultyLevel
  cuisine : String
  meal_type : Option MealType
  seasons : List Season
  rating : ℚ
  source : String
  source_url : String
  author : String
  photos : List RecipePhoto
  video_url : String
  created_at : Datetime
  updated_at : Datetime
  version : Int
  deriving Repr, DecidableEq

inductive RecipeIngredientArg
  | dict (d : RecipeIngredientDict)
  | obj (r : RecipeIngredient)
  deriving Repr, DecidableEq

inductive StepArg
  | dict (d : RecipeStepDict)
  | obj (s : RecipeStep)
  | str (s : String)
  deriving Repr, DecidableEq

inductive PhotoArg
  | dict (d : RecipePhotoDict)
  | obj (p : RecipePhoto)
  deriving Repr, DecidableEq

inductive DifficultyArg
  | str (s : String)
  | enum (d : DifficultyLevel)
  deriving Repr, DecidableEq

/-- A `created_at`/`updated_at` keyword argument: an ISO string or a datetime
object. -/
inductive TimestampArg
  | str (s : String)
  | dt (d : Datetime)
  deriving Repr, DecidableEq

/-- The `**kwargs` accepted by `Recipe.__init__`, with the source's
defaults. -/
structure RecipeKwargs where
  name_en : String := ""
  description_no : String := ""
  description_en : String := ""
  recipe_ingredients : List RecipeIngredientArg := []
  preparation_steps : List StepArg := []
  prep_time_minutes : Int := 0
  cook_time_minutes : Int := 0
  rest_time_minutes : Int := 0
  servings : Int := 0
  yield_amount : ℚ := 0
  yield_unit : String := ""
  produces_ingredient : Bool := false
  produced_ingredient_id : String := ""
  categories : List String := []
  tags : List String := []
  difficulty : DifficultyArg := .enum .medium
  cuisine : String := ""
  meal_type : Option (String ⊕ MealType) := none
  seasons : List SeasonArg := []
  rating : ℚ := 0
  source : String := ""
  source_url : String := ""
  author : String := ""
  photos : List PhotoArg := []
  video_url : String := ""
  created_at : Option TimestampArg := none
  updated_at : Option TimestampArg := none
  version : Int := 1
  deriving Repr, DecidableEq

/-- One iteration of the `recipe_ingredients` loop of `Recipe.__init__`:
dicts go through `RecipeIngredient.from_dict`, objects are appended as-is. -/
def recipeIngredientStep (acc : List RecipeIngredient)
    (a : RecipeIngredientArg) : List RecipeIngredient :=
  match a with
  | .dict d => acc ++ [RecipeIngredient.from_dict d]
  | .obj r => acc ++ [r]

/-- The `recipe_ingredients` loop of `Recipe.__init__`. -/
def buildRecipeIngredients (args : List RecipeIngredientArg) :
    List RecipeIngredient :=
  args.foldl recipeIngredientStep []

/-- One iteration of the `preparation_steps` loop of `Recipe.__init__`: a
plain string is wrapped into a step numbered `len(so far) + 1`. -/
def stepArgStep (acc : List RecipeStep) (a : StepArg) : List RecipeStep :=
  match a with
  | .dict d => acc ++ [RecipeStep.from_dict d]
  | .obj s => acc ++ [s]
  | .str s =>
    acc ++ [{ step_number := (acc.length : Int) + 1, instruction_no := s }]

/-- The `preparation_steps` loop of `Recipe.__init__`. -/
def buildSteps (args : List StepArg) : List RecipeStep :=
  args.foldl stepArgStep []

/-- One iteration of the `photos` loop of `Recipe.__init__`. -/
def photoStep (acc : List RecipePhoto) (a : PhotoArg) : List RecipePhoto :=
  match a with
  | .dict d => acc ++ [RecipePhoto.from_dict d]
  | .obj p => acc ++ [p]

/-- The `photos` loop of `Recipe.__init__`. -/
def buildPhotos (args : List PhotoArg) : List RecipePhoto :=
  args.foldl photoStep []

/-- `created_at`/`updated_at` resolution in `Recipe.__init__`: an ISO string
is parsed (falling back to `datetime.now()`), an absent value becomes
`datetime.now()`, a datetime value is kept. -/
def resolveTimestamp (arg : Option TimestampArg) (now : Datetime) : Datetime :=
  match arg with
  | none => now
  | some (.str s) => (Datetime.fromisoformat s).getD now
  | some (.dt d) => d

/-- Translation of `Recipe.__init__` (`src/src/models/recipe.py`, lines
193–331).  `freshId` stands for the generated `str(uuid.uuid4())` and `now`
for `datetime.now()`; the `ValueError` on an empty Norwegian name is the
`.error` branch. -/
def Recipe.init (recipe_id : Option String) (name_no : String)
    (freshId : String) (now : Datetime) (kwargs : RecipeKwargs := {}) :
    Except String Recipe :=
  if name_no = "" then .error "Recipe must have a Norwegian name (name_no)"
  else
    .ok
      { id :=
          match recipe_id with
          | some s => if s = "" then freshId else s
          | none => freshId
        names :=
          { no := name_no
            en := kwargs.name_en
            description_no := kwargs.description_no
            description_en := kwargs.description_en }
        recipe_ingredients := buildRecipeIngredients kwargs.recipe_ingredients
        preparation_steps := buildSteps kwargs.preparation_steps
        prep_time_minutes := kwargs.prep_time_minutes
        cook_time_minutes := kwargs.cook_time_minutes
        rest_time_minutes := kwargs.rest_time_minutes
        servings := kwargs.servings
        yield_amount := kwargs.yield_amount
        yield_unit := kwargs.yield_unit
        produces_ingredient := kwargs.produces_ingredient
        produced_ingredient_id := kwargs.produced_ingredient_id
        categories := kwargs.categories
        tags := kwargs.tags
        difficulty :=
          match kwargs.difficulty with
          | .str s => (DifficultyLevel.ofString s).getD .medium
          | .enum d => d
        cuisine := kwargs.cuisine
        meal_type :=
          match kwargs.meal_type with
          | none => none
          | some (.inl s) => MealType.ofString s
          | some (.inr m) => some m
        seasons := parseSeasonList kwargs.seasons
        rating := kwargs.rating
        source := kwargs.source
        source_url := kwargs.source_url
        author := kwargs.author
        photos := buildPhotos kwargs.photos
        video_url := kwargs.video_url
        created_at := resolveTimestamp kwargs.created_at now
        updated_at := resolveTimestamp kwargs.updated_at now
        version := kwargs.version }

/-- `self.meal_type.value if self.meal_type else ''` in `Recipe.to_dict`. -/
def mealTypeValue (mt : Option MealType) : String :=
  match mt with
  | some m => m.value
  | none => ""

/-- The dictionary produced by `Recipe.to_dict` (typed form of the JSON
shape). -/
structure RecipeDict where
  id : String
  names : RecipeNames
  recipe_ingredients : List RecipeIngredientDict
  preparation_steps : List RecipeStepDict
  prep_time_minutes : Int
  cook_time_minutes : Int
  rest_time_minutes : Int
  servings : Int
  yield_amount : ℚ
  yield_unit : String
  produces_ingredient : Bool
  produced_ingredient_id : String
  categories : List String
  tags : List String
  difficulty : String
  cuisine : String
  meal_type : String
  seasons : List String
  rating : ℚ
  source : String
  source_url : String
  author : String
  photos : List RecipePhotoDict
  video_url : String
  created_at : String
  updated_at : String
  version : Int
  deriving Repr, DecidableEq

def Recipe.to_dict (r : Recipe) : RecipeDict :=
  { id := r.id
    names := r.names
    recipe_ingredients := r.recipe_ingredients.map RecipeIngredient.to_dict
    preparation_steps := r.preparation_steps.map RecipeStep.to_dict
    prep_time_minutes := r.prep_time_minutes
    cook_time_minutes := r.cook_time_minutes
    rest_time_minutes := r.rest_time_minutes
    servings := r.servings
    yield_amount := r.yield_amount
    yield_unit := r.yield_unit
    produces_ingredient := r.produces_ingredient
    produced_ingredient_id := r.produced_ingredient_id
    categories := r.categories
    tags := r.tags
    difficulty := r.difficulty.value
    cuisine := r.cuisine
    meal_type := mealTypeValue r.meal_type
    seasons := r.seasons.map Season.value
    rating := r.rating
    source := r.source
    source_url := r.source_url
    author := r.author
    photos := r.photos.map RecipePhoto.to_dict
    video_url := r.video_url
    created_at := r.created_at.isoformat
    updated_at := r.updated_at.isoformat
    version := r.version }

/-- Translation of `Recipe.from_dict`.  The kwargs forwarded to the
constructor are `{k: v for k, v in data.items() if k not in ['id', 'names']}`:
the whole `names` entry is **excluded**, so `name_en`, `description_no` and
`description_en` are absent from the kwargs and take the constructor defaults
`''`; only `names['no']` is forwarded (as the positional `name_no`). -/
def Recipe.from_dict (freshId : String) (now : Datetime) (data : RecipeDict) :
    Except String Recipe :=
  let recipe_id := data.id
  let name_no := data.names.no
  if name_no = "" then .error "Recipe must have a Norwegian name"
  else
    Recipe.init (some recipe_id) name_no freshId now
      { recipe_ingredients := data.recipe_ingredients.map .dict
        preparation_steps := data.preparation_steps.map .dict
        prep_time_minutes := data.prep_time_minutes
        cook_time_minutes := data.cook_time_minutes
        rest_time_minutes := data.rest_time_minutes
        servings := data.servings
        yield_amount := data.yield_amount
        yield_unit := data.yield_unit
        produces_ingredient := data.produces_ingredient
        produced_ingredient_id := data.produced_ingredient_id
        categories := data.categories
        tags := data.tags
        difficulty := .str data.difficulty
        cuisine := data.cuisine
        meal_type := some (.inl data.meal_type)
        seasons := data.seasons.map .str
        rating := data.rating
        source := data.source
        source_url := data.source_url
        author := data.author
        photos := data.photos.map .dict
        video_url := data.video_url
        created_at := some (.str data.created_at)
        updated_at := some (.str data.updated_at)
        version := data.version }

/-- Translation of `Recipe.remove_ingredient`: filters out every entry whose
`ingredient_id` matches; when anything was removed, bumps `updated_at` to
`datetime.now()` (the `now` argument) and `version` by one and returns
`True`. -/
def Recipe.remove_ingredient (r : Recipe) (ingredient_id : String)
    (now : Datetime) : Bool × Recipe :=
  let original_length := r.recipe_ingredients.length
  let kept := r.recipe_ingredients.filter
    (fun ing => ing.ingredient_id ≠ ingredient_id)
  let r1 := { r with recipe_ingredients := kept }
  if kept.length < original_length then
    (true, { r1 with updated_at := now, version := r1.version + 1 })
  else
    (false, r1)

/-! ## Nutrition and cost algorithms (`recipe.py`) -/

/-- One step of the vitamin/mineral accumulation loop of
`calculate_nutrition_per_serving`: for the `(key, amount)` entry at hand, add
to the existing entry of the accumulated dict or append a new one. -/
def combineStep (acc : List (String × ℚ)) (kv : String × ℚ) :
    List (String × ℚ) :=
  if acc.any (fun p => p.1 == kv.1) then
    acc.map (fun p => if p.1 == kv.1 then (p.1, p.2 + kv.2) else p)
  else acc ++ [kv]

/-- The vitamin/mineral accumulation loop of
`calculate_nutrition_per_serving` over one ingredient's map. -/
def dictCombine (total items : List (String × ℚ)) : List (String × ℚ) :=
  items.foldl combineStep total

/-- Dictionary lookup with the default `0` (reading an accumulated
vitamin/mineral amount). -/
def lookup0 (l : List (String × ℚ)) (k : String) : ℚ :=
  match l.find? (fun p => p.1 == k) with
  | some p => p.2
  | none => 0

/-- One iteration of the accumulation loop of
`calculate_nutrition_per_serving`: unresolved entries (no hydrated
`ingredient`) are skipped, resolved ones have their full base nutrition added
field by field. -/
def nutritionStep (total : NutritionInfo) (ri : RecipeIngredient) :
    NutritionInfo :=
  match ri.ingredient with
  | none => total
  | some ing =>
    { calories := total.calories + ing.nutrition.calories
      protein := total.protein + ing.nutrition.protein
      carbs := total.carbs + ing.nutrition.carbs
      fat := total.fat + ing.nutrition.fat
      fiber := total.fiber + ing.nutrition.fiber
      sugar := total.sugar + ing.nutrition.sugar
      sodium := total.sodium + ing.nutrition.sodium
      vitamins := dictCombine total.vitamins ing.nutrition.vitamins
      minerals := dictCombine total.minerals ing.nutrition.minerals }

/-- The accumulation loop of `calculate_nutrition_per_serving` over the
recipe's ingredient list, starting from `NutritionInfo()`. -/
def sumNutrition (ingredients : List RecipeIngredient) : NutritionInfo :=
  ingredients.foldl nutritionStep {}

/-- Translation of `Recipe.calculate_nutrition_per_serving`
(`src/src/models/recipe.py`, lines 414–466): `None` when
`not servings or servings <= 0`, otherwise the accumulated totals with every
field (including every vitamin/mineral entry) divided by `servings`. -/
def Recipe.calculate_nutrition_per_serving (r : Recipe) : Option NutritionInfo :=
  if r.servings ≤ 0 then none
  else
    let total := sumNutrition r.recipe_ingredients
    let s : ℚ := (r.servings : ℚ)
    some
      { calories := total.calories / s
        protein := total.protein / s
        carbs := total.carbs / s
        fat := total.fat / s
        fiber := total.fiber / s
        sugar := total.sugar / s
        sodium := total.sodium / s
        vitamins := total.vitamins.map (fun p => (p.1, p.2 / s))
        minerals := total.minerals.map (fun p => (p.1, p.2 / s)) }

/-- One iteration of the `estimate_cost` loop: a resolved ingredient with
positive `average_price_per_kg` and positive `typical_weight_grams`
contributes `price_per_kg * typical_weight_grams / 1000`; everything else is
skipped. -/
def costStep (total_cost : ℚ) (ri : RecipeIngredient) : ℚ :=
  match ri.ingredient with
  | none => total_cost
  | some ing =>
    let price_per_kg := ing.price_info.average_price_per_kg
    if 0 < price_per_kg ∧ 0 < ing.typical_weight_grams then
      total_cost + price_per_kg * ing.typical_weight_grams / 1000
    else total_cost

/-- Translation of `Recipe.estimate_cost`. -/
def Recipe.estimate_cost (r : Recipe) : ℚ :=
  r.recipe_ingredients.foldl costStep 0

/-- Translation of `Recipe.get_cost_per_serving`: total divided by `servings`
when `servings > 0`, otherwise the total itself. -/
def Recipe.get_cost_per_serving (r : Recipe) : ℚ :=
  let total_cost := r.estimate_cost
  if 0 < r.servings then total_cost / (r.servings : ℚ)
  else total_cost

/-! ## Recipe scaling utilities (`src/src/utils/recipe_scaling.py`)

Quantities are Python floats, modelled as exact rationals; `float(...)`,
`int(...)` and `Fraction(...)` are modelled on the literal grammars Python
accepts (sign, digit groups with underscore separators, decimal point,
exponent).  The IEEE special values `inf`/`nan` and binary-float rounding
artifacts are outside the rational model: `"inf"`-like strings are treated as
unparsable and decimal rounding is exact half-to-even. -/

/-- The numeric-prefix character class of the regex `^([0-9\/.,]+)` in
`parse_quantity`. -/
def isQuantityChar (c : Char) : Bool :=
  c.isDigit || c == '/' || c == '.' || c == ','

/-- A Python digit group as accepted inside `int`/`float` literals: nonempty,
only digits and underscores, starting and ending with a digit, and no two
adjacent underscores (so every underscore sits between two digits). -/
def pyDigitGroup (l : List Char) : Bool :=
  !l.isEmpty
  && l.all (fun c => c.isDigit || c == '_')
  && (match l.head? with
      | some c => c.isDigit
      | none => false)
  && (match l.getLast? with
      | some c => c.isDigit
      | none => false)
  && ((l.zip l.tail).all (fun p => !(p.1 == '_' && p.2 == '_')))

/-- Numeric value of the digits of a digit group (underscores skipped). -/
def digitsVal (l : List Char) : ℕ :=
  (l.filter (fun c => c.isDigit)).foldl (fun acc c => acc * 10 + (c.toNat - 48)) 0

/-- Parses a digit group: value and number of digits. -/
def parseDigits? (l : List Char) : Option (ℕ × ℕ) :=
  if pyDigitGroup l then some (digitsVal l, (l.filter (fun c => c.isDigit)).length)
  else none

/-- Model of Python `float(s)` on finite literals: strip whitespace, optional
sign, mantissa `D`, `D.`, `D.D` or `.D` (each `D` a digit group), optional
exponent `e`/`E` with optional sign and a digit group. -/
def pyFloat? (s : String) : Option ℚ :=
  let l0 := pyStripList s.data
  let signAndRest : ℚ × List Char :=
    match l0 with
    | '+' :: r => (1, r)
    | '-' :: r => (-1, r)
    | r => (1, r)
  let sign := signAndRest.1
  let l := signAndRest.2
  let mant := l.takeWhile (fun c => !(c == 'e' || c == 'E'))
  let expPart : Option ℤ :=
    match l.drop mant.length with
    | [] => some 0
    | _ :: expChars =>
      let esignAndRest : ℤ × List Char :=
        match expChars with
        | '+' :: r => (1, r)
        | '-' :: r => (-1, r)
        | r => (1, r)
      match parseDigits? esignAndRest.2 with
      | some p => some (esignAndRest.1 * p.1)
      | none => none
  match expPart with
  | none => none
  | some e =>
    let intPart := mant.takeWhile (fun c => !(c == '.'))
    match mant.drop intPart.length with
    | [] =>
      match parseDigits? intPart with
      | some p => some (sign * (p.1 : ℚ) * (10 : ℚ) ^ e)
      | none => none
    | _ :: fracChars =>
      if fracChars.contains '.' then none
      else if intPart.isEmpty ∧ fracChars.isEmpty then none
      else if intPart.isEmpty then
        match parseDigits? fracChars with
        | some p => some (sign * ((p.1 : ℚ) / (10 : ℚ) ^ (p.2 : ℕ)) * (10 : ℚ) ^ e)
        | none => none
      else if fracChars.isEmpty then
        match parseDigits? intPart with
        | some p => some (sign * (p.1 : ℚ) * (10 : ℚ) ^ e)
        | none => none
      else
        match parseDigits? intPart, parseDigits? fracChars with
        | some pi, some pf =>
          some (sign * ((pi.1 : ℚ) + (pf.1 : ℚ) / (10 : ℚ) ^ (pf.2 : ℕ))
            * (10 : ℚ) ^ e)
        | _, _ => none

/-- Model of Python `Fraction(s)` on the strings reachable from
`parse_quantity`'s numeric prefix (digits, dots and slashes only): `A/B` with
both sides plain digit strings and `B ≠ 0`; `ValueError` and
`ZeroDivisionError` both become `none`. -/
def pyFraction? (s : String) : Option ℚ :=
  match s.splitOn "/" with
  | [a, b] =>
    let la := a.data
    let lb := b.data
    if la ≠ [] ∧ lb ≠ [] ∧ la.all Char.isDigit ∧ lb.all Char.isDigit then
      if digitsVal lb = 0 then none
      else some ((digitsVal la : ℚ) / (digitsVal lb : ℚ))
    else none
  | _ => none

/-- Translation of `parse_quantity` (`recipe_scaling.py`, lines 10–54):
empty/blank → absent; hyphen ranges split on `-` use the lower bound when it
parses as a float (else fall through); otherwise the leading `[0-9/.,]` run,
with `,` replaced by `.`, is parsed as a fraction when it contains `/` (trying
`float` on failure, which then fails too) and as a float otherwise. -/
def parse_quantity (quantity_str : String) : Option ℚ :=
  if quantity_str = "" ∨ pyStrip quantity_str = "" then none
  else
    let qs := pyStrip quantity_str
    let rangeResult : Option ℚ :=
      if qs.data.contains '-' then
        match qs.splitOn "-" with
        | [a, _b] => pyFloat? (pyStrip a)
        | _ => none
      else none
    match rangeResult with
    | some v => some v
    | none =>
      let numeric := qs.data.takeWhile isQuantityChar
      if numeric ≠ [] then
        let numeric_str := numeric.map (fun c => if c == ',' then '.' else c)
        let fracResult : Option ℚ :=
          if numeric_str.contains '/' then pyFraction? (String.mk numeric_str)
          else none
        match fracResult with
        | some v => some v
        | none => pyFloat? (String.mk numeric_str)
      else none

/-- Translation of `extract_unit` (lines 57–72): strip, remove the leading
`[0-9/.,\-\s]+` run, strip the remainder. -/
def extract_unit (quantity_str : String) : String :=
  if quantity_str = "" ∨ pyStrip quantity_str = "" then ""
  else
    pyStrip (String.mk ((pyStripList quantity_str.data).dropWhile
      (fun c => isQuantityChar c || c == '-' || pyIsSpace c)))

/-- Python's `round()` (and decimal formatting): round half to even. -/
def roundHalfEven (q : ℚ) : ℤ :=
  let f := ⌊q⌋
  let r := q - (f : ℚ)
  if r < 1/2 then f
  else if 1/2 < r then f + 1
  else if f % 2 = 0 then f
  else f + 1

/-- `f"{value:.1f}".rstrip('0').rstrip('.')` for the nonnegative values that
reach the final branch of `format_number`: one decimal digit (half-even),
then trailing-zero/point trimming. -/
def formatOneDecimal (value : ℚ) : String :=
  let t := roundHalfEven (value * 10)
  pyRstrip (pyRstrip (toString (t / 10) ++ "." ++ toString (t % 10)) '0') '.'

/-- The keys of the `common_fractions` dict of `format_number`, in insertion
order (the float literals `0.333`/`0.667` taken as exact decimals). -/
def commonFractionValues : List ℚ :=
  [1/8, 1/4, 333/1000, 1/2, 667/1000, 3/4]

/-- Translation of `format_number` (lines 112–145): values under 0.01 render
`"0"`; values within 0.01 of a common fraction render as that fraction's
text (checked in dict insertion order); values within 0.01 of a whole number
render as the integer; otherwise one decimal place with trailing zero/point
trimming. -/
def format_number (value : ℚ) : String :=
  if value < 1/100 then "0"
  else if |value - 1/8| < 1/100 then "1/8"
  else if |value - 1/4| < 1/100 then "1/4"
  else if |value - 333/1000| < 1/100 then "1/3"
  else if |value - 1/2| < 1/100 then "1/2"
  else if |value - 667/1000| < 1/100 then "2/3"
  else if |value - 3/4| < 1/100 then "3/4"
  else if |value - (roundHalfEven value : ℚ)| < 1/100 then
    toString (roundHalfEven value)
  else formatOneDecimal value

/-- Translation of `format_scaled_quantity` (lines 75–109). -/
def format_scaled_quantity (original_quantity : String) (scale_factor : ℚ) :
    String :=
  match parse_quantity original_quantity with
  | none => original_quantity
  | some parsed_qty =>
    if parsed_qty = 0 then original_quantity
    else
      let scaled_qty := parsed_qty * scale_factor
      let unit := extract_unit original_quantity
      let formatted_qty := format_number scaled_qty
      if unit ≠ "" then formatted_qty ++ " " ++ unit
      else formatted_qty

/-- Model of Python `int(s)`: optional sign, then a digit group (with
underscore separators), after stripping whitespace. -/
def pyInt? (s : String) : Option ℤ :=
  match pyStripList s.data with
  | '+' :: r => (parseDigits? r).map (fun p => (p.1 : ℤ))
  | '-' :: r => (parseDigits? r).map (fun p => -(p.1 : ℤ))
  | r => (parseDigits? r).map (fun p => (p.1 : ℤ))

/-- The `servings` value read from a raw recipe dictionary: absent (`None`),
a JSON integer, or a string. -/
inductive ServingsValue
  | absent
  | int (i : ℤ)
  | str (s : String)
  deriving Repr, DecidableEq

/-- Python truthiness of the servings value (`if servings:`). -/
def ServingsValue.truthy : ServingsValue → Bool
  | .absent => false
  | .int i => decide (i ≠ 0)
  | .str s => decide (s ≠ "")

/-- Python `str(servings)`. -/
def ServingsValue.toStr : ServingsValue → String
  | .absent => "None"
  | .int i => toString i
  | .str s => s

/-- One iteration of the servings-branch loop of `get_scaling_options`
(`target_servings in range(1, 13)`): appends the `(scale_factor, label)`
option and records the default index (the length of the list before the
append) when the target equals the original servings. -/
def servingsOptionStep (original : ℤ) (st : List (ℚ × String) × ℕ)
    (target : ℕ) : List (ℚ × String) × ℕ :=
  let scale_factor : ℚ := (target : ℚ) / (original : ℚ)
  let label := toString target ++ " servings"
  if (target : ℤ) = original then
    (st.1 ++ [(scale_factor, label ++ " (original)")], st.1.length)
  else
    (st.1 ++ [(scale_factor, label)], st.2)

/-- The fixed multiplier ladder of the no-servings branch. -/
def scaleLadder : List ℚ := [1/4, 1/2, 3/4, 1, 3/2, 2, 3, 4, 6, 8, 10, 12]

/-- The `(scale_factor, label)` options of the no-servings branch: `1` is
labeled `"1x (original)"`, factors below one via `format_number`, larger ones
as `f"{int(f)}x"` (truncation). -/
def ladderOptions : List (ℚ × String) :=
  scaleLadder.map (fun f =>
    if f = 1 then (f, "1x (original)")
    else if f < 1 then (f, format_number f ++ "x")
    else (f, toString ⌊f⌋ ++ "x"))

/-- Translation of `get_scaling_options` (lines 148–201).  Returns
`(options, default_index, label_format)`. -/
def get_scaling_options (servings : ServingsValue) :
    List (ℚ × String) × ℕ × String :=
  let original_servings : Option ℤ :=
    if servings.truthy then pyInt? (pyStrip servings.toStr) else none
  match original_servings with
  | some n =>
    if 0 < n then
      let st := (List.range 12).foldl
        (fun st j => servingsOptionStep n st (j + 1)) ([], 0)
      (st.1, st.2, "Scale to:")
    else (ladderOptions, 3, "Scale recipe:")
  | none => (ladderOptions, 3, "Scale recipe:")

/-! ## Claim-side reformulations and concrete examples

The definitions below restate what the specification asserts (key-wise sums,
per-ingredient cost contributions) so that the theorems can compare the
translated algorithms against them, plus small concrete values used in
witnesses. -/

/-- The resolved (hydrated) ingredients of a recipe-ingredient list, in
order. -/
def resolvedIngredients (l : List RecipeIngredient) : List Ingredient :=
  l.filterMap (fun ri => ri.ingredient)

/-- The base nutrition profiles of the resolved ingredients. -/
def resolvedNutritions (l : List RecipeIngredient) : List NutritionInfo :=
  (resolvedIngredients l).map (fun ing => ing.nutrition)

/-- Total amount contributed to key `k` by a vitamin/mineral map. -/
def keyContribution (items : List (String × ℚ)) (k : String) : ℚ :=
  (items.map (fun kv => if kv.1 = k then kv.2 else 0)).sum

/-- A Python dict has pairwise-distinct keys. -/
def nodupKeys (l : List (String × ℚ)) : Prop :=
  (l.map Prod.fst).Nodup

instance (l : List (String × ℚ)) : Decidable (nodupKeys l) :=
  inferInstanceAs (Decidable (l.map Prod.fst).Nodup)

/-- The specification's per-ingredient cost contribution: resolved ingredients
with positive price and positive typical weight contribute
`price_per_kg * typical_weight_grams / 1000`, every other entry contributes
zero. -/
def costContribution (ri : RecipeIngredient) : ℚ :=
  match ri.ingredient with
  | none => 0
  | some ing =>
    if 0 < ing.price_info.average_price_per_kg ∧ 0 < ing.typical_weight_grams
    then ing.price_info.average_price_per_kg * ing.typical_weight_grams / 1000
    else 0

/-- The hydrated-ingredient reference carried by a constructor argument (dict
arguments never carry one). -/
def RecipeIngredientArg.hydrated : RecipeIngredientArg → Option Ingredient
  | .dict _ => none
  | .obj r => r.ingredient

/-- A minimal recipe value used by concrete witnesses. -/
def baseRecipe (servings : Int) (ings : List RecipeIngredient) : Recipe :=
  { id := "r1"
    names := { no := "Suppe" }
    recipe_ingredients := ings
    preparation_steps := []
    prep_time_minutes := 0
    cook_time_minutes := 0
    rest_time_minutes := 0
    servings := servings
    yield_amount := 0
    yield_unit := ""
    produces_ingredient := false
    produced_ingredient_id := ""
    categories := []
    tags := []
    difficulty := .medium
    cuisine := ""
    meal_type := none
    seasons := []
    rating := 0
    source := ""
    source_url := ""
    author := ""
    photos := []
    video_url := ""
    created_at := 0
    updated_at := 0
    version := 1 }

/-- Witness ingredient for the cost claims: 100 currency units per kg,
typical weight 250 g. -/
def costIngredientEx : Ingredient :=
  Ingredient.init "tomat" "tomat" none "vegetable"
    { typical_weight_grams := 250
      price_info := .obj { average_price_per_kg := 100 } }

/-- Witness recipe for the cost claims: exactly one resolved ingredient,
2 servings. -/
def costRecipeEx : Recipe :=
  baseRecipe 2 [{ ingredient_id := "tomat", ingredient := some costIngredientEx }]

/-- Witness ingredient with 100 calories (rest zero). -/
def nutIngredientA : Ingredient :=
  Ingredient.init "a" "a" none "uncategorized"
    { nutrition := .obj { calories := 100 } }

/-- Witness ingredient with 50 calories (rest zero). -/
def nutIngredientB : Ingredient :=
  Ingredient.init "b" "b" none "uncategorized"
    { nutrition := .obj { calories := 50 } }

/-- Witness recipe for the nutrition claim: servings 2, two resolved
ingredients with calories 100 and 50. -/
def nutritionRecipeEx : Recipe :=
  baseRecipe 2
    [{ ingredient_id := "a", ingredient := some nutIngredientA },
     { ingredient_id := "b", ingredient := some nutIngredientB }]

/-- Witness recipe for the ingredient-removal claim: two entries for
ingredient `"a"`, one for `"b"`. -/
def removalRecipeEx : Recipe :=
  baseRecipe 4
    [{ ingredient_id := "a" }, { ingredient_id := "b" }, { ingredient_id := "a" }]

/-- Witness ingredient carrying plural name forms. -/
def pluralIngredientEx : Ingredient :=
  Ingredient.init "carrot" "gulrot" (some "carrot") "vegetable"
    { plural_no := "gulrøtter", plural_en := "carrots" }

/-! ### Claim C9 -/

/-- **C9.** `is_ingredient_heading` classifies an ingredient dictionary as a
section heading exactly when its quantity, note and rawText fields are all
empty (the source strips whitespace before testing emptiness) and its name
ends with two trailing spaces; in particular the `"Topping  "` example with
two trailing spaces is a heading while the single-trailing-space variant is
not. -/
theorem C9_heading_detection :
    (∀ ingredient : IngredientEntry,
      is_ingredient_heading ingredient = true ↔
        (pyStrip ingredient.quantity = "" ∧ pyStrip ingredient.note = "" ∧
          pyStrip ingredient.rawText = "" ∧ pyEndsWith ingredient.name "  " = true))
    ∧ is_ingredient_heading ⟨"", "", "", "Topping  "⟩ = true
    ∧ is_ingredient_heading ⟨"", "", "", "Topping "⟩ = false := by
  refine ⟨fun ingredient => ?_, by decide, by decide⟩
  simp [is_ingredient_heading, Bool.and_eq_true, and_assoc]

/-! ### Claim C8 -/

theorem find?_map_setWeek {α : Type} (plans : List (String × List α))
    (weekKey target : String) (v : List α) :
    (plans.map (fun p => if p.1 == weekKey then (p.1, v) else p)).find?
        (fun p => p.1 == target)
      = (plans.find? (fun p => p.1 == target)).map
          (fun p => if p.1 == weekKey then (p.1, v) else p) := by
  have hfun : ((fun p : String × List α => p.1 == target) ∘
      fun p : String × List α => if p.1 == weekKey then (p.1, v) else p)
      = fun p : String × List α => p.1 == target := by
    funext p
    by_cases h : p.1 == weekKey <;> simp [Function.comp, h]
  rw [List.find?_map, hfun]

theorem getWeek_setWeek_self {α : Type} (plans : List (String × List α))
    (weekKey : String) (v : List α) :
    getWeekRecipes (setWeekRecipes plans weekKey v) weekKey = v := by
  unfold setWeekRecipes
  by_cases hmem : plans.any (fun p => p.1 == weekKey)
  · rw [if_pos hmem]
    unfold getWeekRecipes
    rw [find?_map_setWeek]
    cases hfind : plans.find? (fun p => p.1 == weekKey) with
    | none =>
      rw [List.find?_eq_none] at hfind
      rw [List.any_eq_true] at hmem
      obtain ⟨p, hp, hc⟩ := hmem
      exact absurd hc (hfind p hp)
    | some q =>
      have hq := List.find?_some hfind
      have hq1 : q.1 = weekKey := by simpa using hq
      simp [hq1]
  · rw [if_neg hmem]
    unfold getWeekRecipes
    have hnone : plans.find? (fun p => p.1 == weekKey) = none := by
      rw [List.find?_eq_none]
      intro p hp hc
      exact hmem (List.any_eq_true.mpr ⟨p, hp, hc⟩)
    rw [List.find?_append, hnone]
    simp [List.find?]

theorem getWeek_setWeek_other {α : Type} (plans : List (String × List α))
    (weekKey k : String) (v : List α) (hk : k ≠ weekKey) :
    getWeekRecipes (setWeekRecipes plans weekKey v) k = getWeekRecipes plans k := by
  unfold setWeekRecipes
  by_cases hmem : plans.any (fun p => p.1 == weekKey)
  · rw [if_pos hmem]
    unfold getWeekRecipes
    rw [find?_map_setWeek]
    cases hfind : plans.find? (fun p => p.1 == k) with
    | none => rfl
    | some q =>
      have hq := List.find?_some hfind
      have hq1 : q.1 = k := by simpa using hq
      have hqw : q.1 ≠ weekKey := by
        rw [hq1]
        exact hk
      simp [hqw]
  · rw [if_neg hmem]
    unfold getWeekRecipes
    rw [List.find?_append]
    have hlast : List.find? (fun p : String × List α => p.1 == k) [(weekKey, v)]
        = none := by
      have hkw : (weekKey == k) = false := by
        simp only [beq_eq_false_iff_ne, ne_eq]
        exact fun h => hk h.symm
      simp [List.find?, hkw]
    rw [hlast]
    cases plans.find? (fun p => p.1 == k) <;> rfl

/-- **C8.** Auto-populating a week that already holds at least one recipe,
without `force`, returns `False` and leaves the whole weekly-plans map (hence
that week's list) unchanged; with `force` (and a nonempty recipe pool and a
nonempty selection) it returns `True`, replaces exactly that week's entry with
the selected recipes, and leaves every other week's entry unchanged. -/
theorem C8_populate_week (α : Type) (plans : List (String × List α))
    (weekKey : String) (allRecipes selectedRecipes : List α) :
    ((getWeekRecipes plans weekKey).length > 0 →
      populate_week_with_random_recipes plans weekKey false allRecipes selectedRecipes
        = (false, plans))
    ∧ (allRecipes ≠ [] → selectedRecipes ≠ [] →
      (populate_week_with_random_recipes plans weekKey true allRecipes selectedRecipes).1
          = true
      ∧ getWeekRecipes
          (populate_week_with_random_recipes plans weekKey true allRecipes
            selectedRecipes).2 weekKey = selectedRecipes
      ∧ ∀ k : String, k ≠ weekKey →
          getWeekRecipes
            (populate_week_with_random_recipes plans weekKey true allRecipes
              selectedRecipes).2 k = getWeekRecipes plans k) := by
  constructor
  · intro h
    simp [populate_week_with_random_recipes, h]
  · intro hall hsel
    have hall' : allRecipes.isEmpty = false := by
      cases allRecipes with
      | nil => exact absurd rfl hall
      | cons a l => rfl
    have hsel' : selectedRecipes.isEmpty = false := by
      cases selectedRecipes with
      | nil => exact absurd rfl hsel
      | cons a l => rfl
    have hres : populate_week_with_random_recipes plans weekKey true allRecipes
        selectedRecipes = (true, setWeekRecipes plans weekKey selectedRecipes) := by
      simp [populate_week_with_random_recipes, hall', hsel']
    refine ⟨by rw [hres], ?_, ?_⟩
    · rw [hres]
      exact getWeek_setWeek_self plans weekKey selectedRecipes
    · intro k hk
      rw [hres]
      exact getWeek_setWeek_other plans weekKey k selectedRecipes hk

/-- Witness for **C8** at a concrete state: week `2025-W42` already holds one
recipe, so the unforced call is a no-op returning `false`; the forced call
replaces that week and keeps week `2025-W43` intact. -/
theorem C8_populate_week_witness :
    (populate_week_with_random_recipes
        [("2025-W42", [1]), ("2025-W43", [2, 3])] "2025-W42" false [7, 8, 9] [7, 8]
      = (false, [("2025-W42", [1]), ("2025-W43", [2, 3])]))
    ∧ (populate_week_with_random_recipes
        [("2025-W42", [1]), ("2025-W43", [2, 3])] "2025-W42" true [7, 8, 9] [7, 8]).1
      = true
    ∧ getWeekRecipes (populate_week_with_random_recipes
        [("2025-W42", [1]), ("2025-W43", [2, 3])] "2025-W42" true [7, 8, 9] [7, 8]).2
        "2025-W43"
      = [2, 3] := by
  have h := C8_populate_week Nat [("2025-W42", [1]), ("2025-W43", [2, 3])]
    "2025-W42" [7, 8, 9] [7, 8]
  refine ⟨h.1 (by decide), (h.2 (by decide) (by decide)).1, ?_⟩
  exact (h.2 (by decide) (by decide)).2.2 "2025-W43" (by decide)

/-! ### Claim C10 -/

/-- **C10.** `Recipe.remove_ingredient`: when no entry carries the given
ingredient id it returns `False` and leaves every field of the recipe
unchanged (including `version` and `updated_at`); when at least one entry
matches it removes all of them, returns `True`, sets `updated_at` to now and
increments `version` by exactly one, touching nothing else. -/
theorem C10_remove_ingredient (r : Recipe) (iid : String) (now : Datetime) :
    ((∀ ing ∈ r.recipe_ingredients, ing.ingredient_id ≠ iid) →
      r.remove_ingredient iid now = (false, r))
    ∧ ((∃ ing ∈ r.recipe_ingredients, ing.ingredient_id = iid) →
      r.remove_ingredient iid now
        = (true,
            { r with
              recipe_ingredients :=
                r.recipe_ingredients.filter (fun ing => ing.ingredient_id ≠ iid)
              updated_at := now
              version := r.version + 1 })
      ∧ ∀ ing ∈ (r.remove_ingredient iid now).2.recipe_ingredients,
          ing.ingredient_id ≠ iid) := by
  constructor
  · intro h
    unfold Recipe.remove_ingredient
    have hfil : r.recipe_ingredients.filter (fun ing => ing.ingredient_id ≠ iid)
        = r.recipe_ingredients :=
      List.filter_eq_self.mpr (fun a ha => by simpa using h a ha)
    simp only [hfil, lt_irrefl, if_false]
  · intro h
    obtain ⟨a, ha, haid⟩ := h
    have hlt : (r.recipe_ingredients.filter
          (fun ing => ing.ingredient_id ≠ iid)).length
        < r.recipe_ingredients.length := by
      rw [List.length_filter_lt_length_iff_exists]
      exact ⟨a, ha, by simp [haid]⟩
    have hval : r.remove_ingredient iid now
        = (true,
            { r with
              recipe_ingredients :=
                r.recipe_ingredients.filter (fun ing => ing.ingredient_id ≠ iid)
              updated_at := now
              version := r.version + 1 }) := by
      unfold Recipe.remove_ingredient
      simp only [hlt, if_true]
    refine ⟨hval, ?_⟩
    intro ing hmem
    rw [hval] at hmem
    simp only at hmem
    have := List.of_mem_filter hmem
    simpa using this

/-- Witness for **C10**: removing `"a"` from the concrete recipe removes both
`"a"` entries, returns `True` and bumps the version from 1 to 2; removing the
unknown id `"zz"` is the identity and returns `False`. -/
theorem C10_remove_ingredient_witness :
    (removalRecipeEx.remove_ingredient "zz" 9 = (false, removalRecipeEx))
    ∧ (removalRecipeEx.remove_ingredient "a" 9).1 = true
    ∧ (removalRecipeEx.remove_ingredient "a" 9).2.version = 2
    ∧ (removalRecipeEx.remove_ingredient "a" 9).2.recipe_ingredients
      = [{ ingredient_id := "b" }] := by
  have h1 := (C10_remove_ingredient removalRecipeEx "zz" 9).1 (by decide)
  have h2 := (C10_remove_ingredient removalRecipeEx "a" 9).2
    ⟨{ ingredient_id := "a" }, by decide, rfl⟩
  refine ⟨h1, ?_, ?_, ?_⟩
  · rw [h2.1]
  · rw [h2.1]
    rfl
  · rw [h2.1]
    decide

/-! ### Claim C5 -/

theorem foldl_add_map {α : Type} (g : α → ℚ) (l : List α) (init : ℚ) :
    l.foldl (fun a x => a + g x) init = init + (l.map g).sum := by
  induction l generalizing init with
  | nil => simp
  | cons x xs ih => simp [ih, add_assoc]

theorem costStep_eq_contribution (total : ℚ) (ri : RecipeIngredient) :
    costStep total ri = total + costContribution ri := by
  unfold costStep costContribution
  cases ri.ingredient with
  | none => simp
  | some ing =>
    by_cases hc : 0 < ing.price_info.average_price_per_kg
        ∧ 0 < ing.typical_weight_grams
    · simp [hc]
    · simp [hc]

/-- **C5.** `estimate_cost` is the sum over the ingredient list of the
specification's per-ingredient contribution (resolved entries with positive
price and positive typical weight contribute
`price_per_kg * typical_weight_grams / 1000`, all others contribute `0`), and
`get_cost_per_serving` divides by `servings` exactly when `servings > 0` and
returns the total itself when `servings = 0`. -/
theorem C5_cost_estimation (r : Recipe) :
    r.estimate_cost = (r.recipe_ingredients.map costContribution).sum
    ∧ (0 < r.servings →
        r.get_cost_per_serving = r.estimate_cost / (r.servings : ℚ))
    ∧ (r.servings = 0 → r.get_cost_per_serving = r.estimate_cost) := by
  refine ⟨?_, ?_, ?_⟩
  · unfold Recipe.estimate_cost
    have hstep : (costStep : ℚ → RecipeIngredient → ℚ)
        = fun a x => a + costContribution x := by
      funext a x
      exact costStep_eq_contribution a x
    rw [hstep, foldl_add_map]
    simp
  · intro h
    unfold Recipe.get_cost_per_serving
    rw [if_pos h]
  · intro h
    unfold Recipe.get_cost_per_serving
    rw [if_neg (by rw [h]; exact lt_irrefl 0)]

/-- Witness for **C5**: the 100-per-kg, 250-g ingredient contributes 25.0 and
the 2-serving recipe costs 12.5 per serving. -/
theorem C5_cost_estimation_witness :
    costRecipeEx.estimate_cost = 25
    ∧ costRecipeEx.get_cost_per_serving = 25 / 2 := by
  have h := C5_cost_estimation costRecipeEx
  have hsum : (costRecipeEx.recipe_ingredients.map costContribution).sum = 25 := by
    show (List.map costContribution
      [{ ingredient_id := "tomat", ingredient := some costIngredientEx }]).sum = 25
    norm_num [costContribution, costIngredientEx, Ingredient.init,
      PriceInfo.from_dict]
  have hest : costRecipeEx.estimate_cost = 25 := by
    rw [h.1, hsum]
  refine ⟨hest, ?_⟩
  rw [h.2.1 (by decide), hest]
  norm_num [costRecipeEx, baseRecipe]

/-! ### Claim C4 -/

theorem find?_map_keyPreserving {β : Type} (acc : List (String × β))
    (f : String × β → String × β) (hf : ∀ p, (f p).1 = p.1) (k : String) :
    (acc.map f).find? (fun p => p.1 == k)
      = (acc.find? (fun p => p.1 == k)).map f := by
  rw [List.find?_map]
  have hfun : ((fun p : String × β => p.1 == k) ∘ f)
      = fun p : String × β => p.1 == k := by
    funext p
    simp [Function.comp, hf p]
  rw [hfun]

theorem lookup0_combineStep (acc : List (String × ℚ)) (kv : String × ℚ)
    (k : String) :
    lookup0 (combineStep acc kv) k
      = lookup0 acc k + (if kv.1 = k then kv.2 else 0) := by
  unfold combineStep
  by_cases hmem : acc.any (fun p => p.1 == kv.1)
  · rw [if_pos hmem]
    unfold lookup0
    rw [find?_map_keyPreserving acc _
      (fun p => by by_cases hp : p.1 == kv.1 <;> simp [hp]) k]
    cases hq : acc.find? (fun p => p.1 == k) with
    | none =>
      by_cases hk : kv.1 = k
      · exfalso
        rw [List.any_eq_true] at hmem
        obtain ⟨p, hp, hpc⟩ := hmem
        rw [List.find?_eq_none] at hq
        apply hq p hp
        have hp1 : p.1 = kv.1 := by simpa using hpc
        simp [hp1, hk]
      · simp [hk]
    | some q =>
      have hqk : q.1 = k := by simpa using List.find?_some hq
      by_cases hk : kv.1 = k
      · have hq1 : (q.1 == kv.1) = true := by simp [hqk, hk]
        simp [hq1, hk, hqk]
      · have hq1 : (q.1 == kv.1) = false := by
          simp only [beq_eq_false_iff_ne, ne_eq, hqk]
          exact fun hcon => hk hcon.symm
        have hk2 : ¬ q.1 = kv.1 := by
          rw [hqk]
          exact fun hc => hk hc.symm
        simp [hq1, hk, hk2]
  · rw [if_neg hmem]
    unfold lookup0
    rw [List.find?_append]
    cases hq : acc.find? (fun p => p.1 == k) with
    | some q =>
      have hqk : q.1 = k := by simpa using List.find?_some hq
      have hkne : kv.1 ≠ k := by
        intro hk
        apply hmem
        rw [List.any_eq_true]
        exact ⟨q, List.mem_of_find?_eq_some hq, by simp [hqk, hk]⟩
      simp [hkne]
    | none =>
      by_cases hk : kv.1 = k
      · simp [List.find?, hk]
      · have hkb : (kv.1 == k) = false := by simp [hk]
        simp [List.find?, hkb, hk]

theorem lookup0_dictCombine (items total : List (String × ℚ)) (k : String) :
    lookup0 (dictCombine total items) k
      = lookup0 total k + keyContribution items k := by
  induction items generalizing total with
  | nil => simp [dictCombine, keyContribution, List.foldl_nil]
  | cons kv rest ih =>
    unfold dictCombine at ih ⊢
    rw [List.foldl_cons, ih, lookup0_combineStep]
    unfold keyContribution
    rw [List.map_cons, List.sum_cons]
    ring

theorem keyContribution_of_not_mem (items : List (String × ℚ)) (k : String)
    (h : k ∉ items.map Prod.fst) : keyContribution items k = 0 := by
  induction items with
  | nil => rfl
  | cons kv rest ih =>
    rw [List.map_cons] at h
    have h1 : kv.1 ≠ k := by
      intro hc
      exact h (by rw [hc]; exact List.mem_cons_self _ _)
    have h2 : k ∉ rest.map Prod.fst := fun hc => h (List.mem_cons_of_mem _ hc)
    unfold keyContribution at ih ⊢
    rw [List.map_cons, List.sum_cons, if_neg h1, ih h2, add_zero]

theorem keyContribution_eq_lookup0 (items : List (String × ℚ)) (k : String)
    (h : nodupKeys items) : keyContribution items k = lookup0 items k := by
  induction items with
  | nil => rfl
  | cons kv rest ih =>
    unfold nodupKeys at h
    rw [List.map_cons, List.nodup_cons] at h
    by_cases hk : kv.1 = k
    · have hrest : keyContribution rest k = 0 :=
        keyContribution_of_not_mem rest k (by rw [← hk]; exact h.1)

      have hcons : keyContribution (kv :: rest) k
          = kv.2 + keyContribution rest k := by
        unfold keyContribution
        rw [List.map_cons, List.sum_cons, if_pos hk]
      have hlook : lookup0 (kv :: rest) k = kv.2 := by
        unfold lookup0
        rw [List.find?_cons_of_pos _ (by simp [hk])]
      rw [hcons, hrest, hlook, add_zero]
    · have hcons : keyContribution (kv :: rest) k = keyContribution rest k := by
        unfold keyContribution
        rw [List.map_cons, List.sum_cons, if_neg hk, zero_add]
      have hlook : lookup0 (kv :: rest) k = lookup0 rest k := by
        unfold lookup0
        rw [List.find?_cons_of_neg _ (by simp [hk])]
      rw [hcons, hlook, ih h.2]

theorem lookup0_map_div (l : List (String × ℚ)) (s : ℚ) (k : String) :
    lookup0 (l.map (fun p => (p.1, p.2 / s))) k = lookup0 l k / s := by
  unfold lookup0
  rw [find?_map_keyPreserving l (fun p => (p.1, p.2 / s)) (fun p => rfl) k]
  cases l.find? (fun p => p.1 == k) with
  | none => simp
  | some q => simp

theorem foldl_nutritionStep (l : List RecipeIngredient) (init : NutritionInfo) :
    ((l.foldl nutritionStep init).calories
        = init.calories + ((resolvedNutritions l).map (fun n => n.calories)).sum)
    ∧ ((l.foldl nutritionStep init).protein
        = init.protein + ((resolvedNutritions l).map (fun n => n.protein)).sum)
    ∧ ((l.foldl nutritionStep init).carbs
        = init.carbs + ((resolvedNutritions l).map (fun n => n.carbs)).sum)
    ∧ ((l.foldl nutritionStep init).fat
        = init.fat + ((resolvedNutritions l).map (fun n => n.fat)).sum)
    ∧ ((l.foldl nutritionStep init).fiber
        = init.fiber + ((resolvedNutritions l).map (fun n => n.fiber)).sum)
    ∧ ((l.foldl nutritionStep init).sugar
        = init.sugar + ((resolvedNutritions l).map (fun n => n.sugar)).sum)
    ∧ ((l.foldl nutritionStep init).sodium
        = init.sodium + ((resolvedNutritions l).map (fun n => n.sodium)).sum)
    ∧ (∀ k, lookup0 (l.foldl nutritionStep init).vitamins k
        = lookup0 init.vitamins k
          + ((resolvedNutritions l).map
              (fun n => keyContribution n.vitamins k)).sum)
    ∧ (∀ k, lookup0 (l.foldl nutritionStep init).minerals k
        = lookup0 init.minerals k
          + ((resolvedNutritions l).map
              (fun n => keyContribution n.minerals k)).sum) := by
  induction l generalizing init with
  | nil =>
    refine ⟨?_, ?_, ?_, ?_, ?_, ?_, ?_, ?_, ?_⟩ <;>
      simp [resolvedNutritions, resolvedIngredients]
  | cons ri rest ih =>
    obtain ⟨h1, h2, h3, h4, h5, h6, h7, h8, h9⟩ := ih (nutritionStep init ri)
    cases hri : ri.ingredient with
    | none =>
      have hstep : nutritionStep init ri = init := by simp [nutritionStep, hri]
      have hres : resolvedNutritions (ri :: rest) = resolvedNutritions rest := by
        simp [resolvedNutritions, resolvedIngredients, List.filterMap_cons, hri]
      rw [hstep] at h1 h2 h3 h4 h5 h6 h7 h8 h9
      refine ⟨?_, ?_, ?_, ?_, ?_, ?_, ?_, ?_, ?_⟩
      · rw [List.foldl_cons, hstep, hres]; exact h1
      · rw [List.foldl_cons, hstep, hres]; exact h2
      · rw [List.foldl_cons, hstep, hres]; exact h3
      · rw [List.foldl_cons, hstep, hres]; exact h4
      · rw [List.foldl_cons, hstep, hres]; exact h5
      · rw [List.foldl_cons, hstep, hres]; exact h6
      · rw [List.foldl_cons, hstep, hres]; exact h7
      · intro k; rw [List.foldl_cons, hstep, hres]; exact h8 k
      · intro k; rw [List.foldl_cons, hstep, hres]; exact h9 k
    | some ing =>
      have hres : resolvedNutritions (ri :: rest)
          = ing.nutrition :: resolvedNutritions rest := by
        simp [resolvedNutritions, resolvedIngredients, List.filterMap_cons, hri]
      have pc : (nutritionStep init ri).calories
          = init.calories + ing.nutrition.calories := by simp [nutritionStep, hri]
      have pp : (nutritionStep init ri).protein
          = init.protein + ing.nutrition.protein := by simp [nutritionStep, hri]
      have pcb : (nutritionStep init ri).carbs
          = init.carbs + ing.nutrition.carbs := by simp [nutritionStep, hri]
      have pf : (nutritionStep init ri).fat
          = init.fat + ing.nutrition.fat := by simp [nutritionStep, hri]
      have pfi : (nutritionStep init ri).fiber
          = init.fiber + ing.nutrition.fiber := by simp [nutritionStep, hri]
      have psu : (nutritionStep init ri).sugar
          = init.sugar + ing.nutrition.sugar := by simp [nutritionStep, hri]
      have pso : (nutritionStep init ri).sodium
          = init.sodium + ing.nutrition.sodium := by simp [nutritionStep, hri]
      have pv : (nutritionStep init ri).vitamins
          = dictCombine init.vitamins ing.nutrition.vitamins := by
        simp [nutritionStep, hri, dictCombine]
      have pm : (nutritionStep init ri).minerals
          = dictCombine init.minerals ing.nutrition.minerals := by
        simp [nutritionStep, hri, dictCombine]
      refine ⟨?_, ?_, ?_, ?_, ?_, ?_, ?_, ?_, ?_⟩
      · rw [List.foldl_cons, h1, pc, hres, List.map_cons, List.sum_cons, add_assoc]
      · rw [List.foldl_cons, h2, pp, hres, List.map_cons, List.sum_cons, add_assoc]
      · rw [List.foldl_cons, h3, pcb, hres, List.map_cons, List.sum_cons, add_assoc]
      · rw [List.foldl_cons, h4, pf, hres, List.map_cons, List.sum_cons, add_assoc]
      · rw [List.foldl_cons, h5, pfi, hres, List.map_cons, List.sum_cons, add_assoc]
      · rw [List.foldl_cons, h6, psu, hres, List.map_cons, List.sum_cons, add_assoc]
      · rw [List.foldl_cons, h7, pso, hres, List.map_cons, List.sum_cons, add_assoc]
      · intro k
        rw [List.foldl_cons, h8 k, pv, lookup0_dictCombine, hres, List.map_cons,
          List.sum_cons, add_assoc]
      · intro k
        rw [List.foldl_cons, h9 k, pm, lookup0_dictCombine, hres, List.map_cons,
          List.sum_cons, add_assoc]

/-- **C4.** `calculate_nutrition_per_serving` is absent exactly for
`servings <= 0`; for positive servings it returns the key-wise sum of the
base nutrition of exactly the resolved ingredients (unresolved entries
contribute nothing) across all seven scalar fields and the vitamin/mineral
maps, with every field divided by `servings` (for the map clauses each
ingredient's map is assumed to have distinct keys, as Python dicts do). -/
theorem C4_nutrition_aggregation :
    (∀ r : Recipe, r.servings ≤ 0 → r.calculate_nutrition_per_serving = none)
    ∧ (∀ r : Recipe, 0 < r.servings →
        ∃ n, r.calculate_nutrition_per_serving = some n
          ∧ n.calories = ((resolvedNutritions r.recipe_ingredients).map
              (fun m => m.calories)).sum / (r.servings : ℚ)
          ∧ n.protein = ((resolvedNutritions r.recipe_ingredients).map
              (fun m => m.protein)).sum / (r.servings : ℚ)
          ∧ n.carbs = ((resolvedNutritions r.recipe_ingredients).map
              (fun m => m.carbs)).sum / (r.servings : ℚ)
          ∧ n.fat = ((resolvedNutritions r.recipe_ingredients).map
              (fun m => m.fat)).sum / (r.servings : ℚ)
          ∧ n.fiber = ((resolvedNutritions r.recipe_ingredients).map
              (fun m => m.fiber)).sum / (r.servings : ℚ)
          ∧ n.sugar = ((resolvedNutritions r.recipe_ingredients).map
              (fun m => m.sugar)).sum / (r.servings : ℚ)
          ∧ n.sodium = ((resolvedNutritions r.recipe_ingredients).map
              (fun m => m.sodium)).sum / (r.servings : ℚ)
          ∧ (∀ k, (∀ m ∈ resolvedNutritions r.recipe_ingredients,
                nodupKeys m.vitamins) →
              lookup0 n.vitamins k
                = ((resolvedNutritions r.recipe_ingredients).map
                    (fun m => lookup0 m.vitamins k)).sum / (r.servings : ℚ))
          ∧ (∀ k, (∀ m ∈ resolvedNutritions r.recipe_ingredients,
                nodupKeys m.minerals) →
              lookup0 n.minerals k
                = ((resolvedNutritions r.recipe_ingredients).map
                    (fun m => lookup0 m.minerals k)).sum / (r.servings : ℚ))) := by
  constructor
  · intro r h
    unfold Recipe.calculate_nutrition_per_serving
    rw [if_pos h]
  · intro r h
    obtain ⟨h1, h2, h3, h4, h5, h6, h7, h8, h9⟩ :=
      foldl_nutritionStep r.recipe_ingredients {}
    have hz : ∀ q : ℚ, ({} : NutritionInfo).calories + q = q := fun q => zero_add q
    have e1 : (sumNutrition r.recipe_ingredients).calories
        = ((resolvedNutritions r.recipe_ingredients).map
            (fun m => m.calories)).sum := by
      unfold sumNutrition
      rw [h1]
      simp
    have e2 : (sumNutrition r.recipe_ingredients).protein
        = ((resolvedNutritions r.recipe_ingredients).map
            (fun m => m.protein)).sum := by
      unfold sumNutrition
      rw [h2]
      simp
    have e3 : (sumNutrition r.recipe_ingredients).carbs
        = ((resolvedNutritions r.recipe_ingredients).map
            (fun m => m.carbs)).sum := by
      unfold sumNutrition
      rw [h3]
      simp
    have e4 : (sumNutrition r.recipe_ingredients).fat
        = ((resolvedNutritions r.recipe_ingredients).map
            (fun m => m.fat)).sum := by
      unfold sumNutrition
      rw [h4]
      simp
    have e5 : (sumNutrition r.recipe_ingredients).fiber
        = ((resolvedNutritions r.recipe_ingredients).map
            (fun m => m.fiber)).sum := by
      unfold sumNutrition
      rw [h5]
      simp
    have e6 : (sumNutrition r.recipe_ingredients).sugar
        = ((resolvedNutritions r.recipe_ingredients).map
            (fun m => m.sugar)).sum := by
      unfold sumNutrition
      rw [h6]
      simp
    have e7 : (sumNutrition r.recipe_ingredients).sodium
        = ((resolvedNutritions r.recipe_ingredients).map
            (fun m => m.sodium)).sum := by
      unfold sumNutrition
      rw [h7]
      simp
    have e8 : ∀ k, lookup0 (sumNutrition r.recipe_ingredients).vitamins k
        = ((resolvedNutritions r.recipe_ingredients).map
            (fun m => keyContribution m.vitamins k)).sum := by
      intro k
      unfold sumNutrition
      rw [h8 k]
      simp [lookup0, List.find?]
    have e9 : ∀ k, lookup0 (sumNutrition r.recipe_ingredients).minerals k
        = ((resolvedNutritions r.recipe_ingredients).map
            (fun m => keyContribution m.minerals k)).sum := by
      intro k
      unfold sumNutrition
      rw [h9 k]
      simp [lookup0, List.find?]
    unfold Recipe.calculate_nutrition_per_serving
    rw [if_neg (not_le.mpr h)]
    refine ⟨_, rfl, ?_, ?_, ?_, ?_, ?_, ?_, ?_, ?_, ?_⟩
    · show (sumNutrition r.recipe_ingredients).calories / (r.servings : ℚ) = _
      rw [e1]
    · show (sumNutrition r.recipe_ingredients).protein / (r.servings : ℚ) = _
      rw [e2]
    · show (sumNutrition r.recipe_ingredients).carbs / (r.servings : ℚ) = _
      rw [e3]
    · show (sumNutrition r.recipe_ingredients).fat / (r.servings : ℚ) = _
      rw [e4]
    · show (sumNutrition r.recipe_ingredients).fiber / (r.servings : ℚ) = _
      rw [e5]
    · show (sumNutrition r.recipe_ingredients).sugar / (r.servings : ℚ) = _
      rw [e6]
    · show (sumNutrition r.recipe_ingredients).sodium / (r.servings : ℚ) = _
      rw [e7]
    · intro k hnd
      show lookup0 ((sumNutrition r.recipe_ingredients).vitamins.map
          (fun p => (p.1, p.2 / (r.servings : ℚ)))) k = _
      rw [lookup0_map_div, e8 k]
      congr 2
      apply List.map_congr_left
      intro m hm
      exact keyContribution_eq_lookup0 m.vitamins k (hnd m hm)
    · intro k hnd
      show lookup0 ((sumNutrition r.recipe_ingredients).minerals.map
          (fun p => (p.1, p.2 / (r.servings : ℚ)))) k = _
      rw [lookup0_map_div, e9 k]
      congr 2
      apply List.map_congr_left
      intro m hm
      exact keyContribution_eq_lookup0 m.minerals k (hnd m hm)

/-- Witness for **C4**: the 2-serving recipe with resolved ingredients of 100
and 50 calories has per-serving calories 75.0, and a 0-serving recipe gets an
absent result. -/
theorem C4_nutrition_aggregation_witness :
    nutritionRecipeEx.calculate_nutrition_per_serving.map (fun n => n.calories)
      = some 75
    ∧ (baseRecipe 0 []).calculate_nutrition_per_serving = none := by
  constructor
  · obtain ⟨n, hn, hcal, _⟩ :=
      C4_nutrition_aggregation.2 nutritionRecipeEx (by decide)
    rw [hn, Option.map_some', hcal]
    have : (resolvedNutritions nutritionRecipeEx.recipe_ingredients).map
        (fun m => m.calories) = [100, 50] := by
      show (resolvedNutritions
        [{ ingredient_id := "a", ingredient := some nutIngredientA },
         { ingredient_id := "b", ingredient := some nutIngredientB }]).map
          (fun m => m.calories) = [100, 50]
      simp [resolvedNutritions, resolvedIngredients, List.filterMap_cons,
        nutIngredientA, nutIngredientB, Ingredient.init]
    rw [this]
    norm_num [nutritionRecipeEx, baseRecipe]
  · exact C4_nutrition_aggregation.1 _ (by decide)

/-! ### Round-trip helper lemmas (used by claims C1–C3) -/

theorem season_ofString_value (s : Season) : Season.ofString s.value = some s := by
  cases s <;> decide

theorem storage_ofString_value (t : StorageType) :
    StorageType.ofString t.value = some t := by
  cases t <;> decide

theorem difficulty_ofString_value (d : DifficultyLevel) :
    DifficultyLevel.ofString d.value = some d := by
  cases d <;> decide

theorem mealtype_ofString_value (m : MealType) :
    MealType.ofString m.value = some m := by
  cases m <;> decide

theorem datetime_fromisoformat_isoformat (d : Datetime) :
    Datetime.fromisoformat d.isoformat = some d := by
  unfold Datetime.isoformat Datetime.fromisoformat
  rw [if_pos]
  · simp
  · constructor
    · simp
    · simp

theorem nutrition_from_dict_to_dict (n : NutritionInfo) :
    NutritionInfo.from_dict n.to_dict = n := rfl

theorem price_from_dict_to_dict (p : PriceInfo) :
    PriceInfo.from_dict p.to_dict = p := rfl

theorem step_from_dict_to_dict (s : RecipeStep) :
    RecipeStep.from_dict s.to_dict = s := rfl

theorem photo_from_dict_to_dict (p : RecipePhoto) :
    RecipePhoto.from_dict p.to_dict = p := rfl

theorem recipe_ingredient_from_dict_to_dict (r : RecipeIngredient) :
    RecipeIngredient.from_dict r.to_dict = { r with ingredient := none } := rfl

theorem parseSeasonList_from (l : List Season) (acc : List Season) :
    List.foldl seasonStep acc (l.map (fun s => SeasonArg.str s.value))
      = acc ++ l := by
  induction l generalizing acc with
  | nil => simp
  | cons s rest ih =>
    rw [List.map_cons, List.foldl_cons]
    have hstep : seasonStep acc (SeasonArg.str s.value) = acc ++ [s] := by
      simp [seasonStep, season_ofString_value]
    rw [hstep, ih]
    simp

theorem parseSeasonList_value (l : List Season) :
    parseSeasonList (l.map (fun s => SeasonArg.str s.value)) = l := by
  unfold parseSeasonList
  rw [parseSeasonList_from]
  rfl

theorem buildRecipeIngredients_from (l : List RecipeIngredientDict)
    (acc : List RecipeIngredient) :
    List.foldl recipeIngredientStep acc (l.map RecipeIngredientArg.dict)
      = acc ++ l.map RecipeIngredient.from_dict := by
  induction l generalizing acc with
  | nil => simp
  | cons d rest ih =>
    rw [List.map_cons, List.foldl_cons]
    show List.foldl recipeIngredientStep (acc ++ [RecipeIngredient.from_dict d])
      (rest.map RecipeIngredientArg.dict) = _
    rw [ih]
    simp

theorem buildSteps_from (l : List RecipeStepDict) (acc : List RecipeStep) :
    List.foldl stepArgStep acc (l.map StepArg.dict)
      = acc ++ l.map RecipeStep.from_dict := by
  induction l generalizing acc with
  | nil => simp
  | cons d rest ih =>
    rw [List.map_cons, List.foldl_cons]
    show List.foldl stepArgStep (acc ++ [RecipeStep.from_dict d])
      (rest.map StepArg.dict) = _
    rw [ih]
    simp

theorem buildPhotos_from (l : List RecipePhotoDict) (acc : List RecipePhoto) :
    List.foldl photoStep acc (l.map PhotoArg.dict)
      = acc ++ l.map RecipePhoto.from_dict := by
  induction l generalizing acc with
  | nil => simp
  | cons d rest ih =>
    rw [List.map_cons, List.foldl_cons]
    show List.foldl photoStep (acc ++ [RecipePhoto.from_dict d])
      (rest.map PhotoArg.dict) = _
    rw [ih]
    simp

/-! ### Claim C1 -/

/-- **C1 counterexample.** `Ingredient("", "")` — empty id and empty Norwegian
name — constructs an ingredient object: `Ingredient.__init__` contains no
validation and no raise path (its translation is a total function), so the
claim that every such construction fails with a `ValueError` is false.  The
empty-field error exists only in `Ingredient.from_dict`. -/
theorem C1_counterexample :
    (Ingredient.init "" "" none "uncategorized" {}).id = ""
    ∧ (Ingredient.init "" "" none "uncategorized" {}).names.no = "" :=
  ⟨rfl, rfl⟩

/-- **C1 (amended).** `Recipe` construction with an empty Norwegian name
raises the invalid-input `ValueError` for every call and never defaults the
field; with a non-empty Norwegian name it succeeds and uses the generated
fresh id when no id is supplied.  For `Ingredient`, the empty-id/empty-name
`ValueError` is raised by `Ingredient.from_dict` (not by `__init__`, which
does not validate — see the counterexample). -/
theorem C1_required_fields :
    (∀ (recipe_id : Option String) (freshId : String) (now : Datetime)
        (kwargs : RecipeKwargs),
      Recipe.init recipe_id "" freshId now kwargs
        = .error "Recipe must have a Norwegian name (name_no)")
    ∧ (∀ (recipe_id : Option String) (name_no freshId : String)
        (now : Datetime) (kwargs : RecipeKwargs), name_no ≠ "" →
      ∃ x, Recipe.init recipe_id name_no freshId now kwargs = .ok x
        ∧ x.names.no = name_no
        ∧ (recipe_id = none → x.id = freshId))
    ∧ (∀ data : IngredientDict, data.id = "" ∨ data.names.no = "" →
      Ingredient.from_dict data
        = .error "Ingredient must have id and Norwegian name") := by
  refine ⟨?_, ?_, ?_⟩
  · intro recipe_id freshId now kwargs
    unfold Recipe.init
    rw [if_pos rfl]
  · intro recipe_id name_no freshId now kwargs h
    unfold Recipe.init
    rw [if_neg h]
    refine ⟨_, rfl, rfl, ?_⟩
    intro hnone
    subst hnone
    rfl
  · intro data h
    simp only [Ingredient.from_dict]
    rw [if_pos h]

/-- Witness for **C1**: `Recipe(name_no="")` fails, `Recipe(name_no="Suppe")`
succeeds with the generated id, and `Ingredient.from_dict` of a dict with an
empty id raises. -/
theorem C1_required_fields_witness :
    (Recipe.init (some "r9") "" "gen-id" 3 {}
      = .error "Recipe must have a Norwegian name (name_no)")
    ∧ (Recipe.init none "Suppe" "gen-id" 3 {}).map (fun x => (x.names.no, x.id))
      = .ok ("Suppe", "gen-id")
    ∧ Ingredient.from_dict
        { (Ingredient.init "carrot" "gulrot" none "uncategorized" {}).to_dict
          with id := "" }
      = .error "Ingredient must have id and Norwegian name" := by
  refine ⟨C1_required_fields.1 (some "r9") "gen-id" 3 {}, ?_, ?_⟩
  · obtain ⟨x, hx, hno, hid⟩ :=
      C1_required_fields.2.1 none "Suppe" "gen-id" 3 {} (by decide)
    rw [hx]
    simp [Except.map, hno, hid rfl]
  · exact C1_required_fields.2.2 _ (Or.inl rfl)

/-! ### Claim C3 -/

/-- **C3 counterexample.** An ingredient constructed with the plural form
`plural_no="gulrøtter"` does not round-trip: `from_dict` excludes the `names`
entry from the forwarded kwargs, so `from_dict(to_dict(x))` resets
`plural_no`/`plural_en` to `""`, contradicting "reproduces every field of x
exactly (including plural name forms)". -/
theorem C3_counterexample :
    (Ingredient.from_dict pluralIngredientEx.to_dict).map
        (fun i => i.names.plural_no) = .ok ""
    ∧ pluralIngredientEx.names.plural_no = "gulrøtter" :=
  ⟨rfl, rfl⟩

/-- **C3 (amended).** For every `Ingredient` built by the constructor from
arbitrary arguments with non-empty id and non-empty Norwegian name,
`from_dict(to_dict(x))` reproduces every field exactly — the full names map
except the plural forms, nested `NutritionInfo`/`PriceInfo`, and the
`storage_type`/`peak_season` enums serialized as strings — while the plural
name forms are reset to `""` (they live in the excluded `names` entry). -/
theorem C3_ingredient_round_trip (ingredient_id name_no : String)
    (name_en : Option String) (category : String) (kwargs : IngredientKwargs)
    (hid : ingredient_id ≠ "") (hno : name_no ≠ "") :
    Ingredient.from_dict
        (Ingredient.init ingredient_id name_no name_en category kwargs).to_dict
      = .ok
          { Ingredient.init ingredient_id name_no name_en category kwargs with
            names :=
              { (Ingredient.init ingredient_id name_no name_en category
                  kwargs).names with
                plural_no := "", plural_en := "" } } := by
  simp only [Ingredient.from_dict, Ingredient.to_dict, Ingredient.init]
  rw [if_neg (by simp [hid, hno])]
  simp only [nutrition_from_dict_to_dict, price_from_dict_to_dict,
    storage_ofString_value, Option.getD_some, List.map_map,
    Function.comp_def, parseSeasonList_value]
  cases name_en with
  | none => simp [hno]
  | some e =>
    by_cases he : e = ""
    · simp [he, hno]
    · simp [he]

/-- Witness for **C3 (amended)**: a concrete ingredient without plural forms
round-trips to itself. -/
theorem C3_ingredient_round_trip_witness :
    Ingredient.from_dict
        (Ingredient.init "lok" "løk" (some "onion") "vegetable" {}).to_dict
      = .ok (Ingredient.init "lok" "løk" (some "onion") "vegetable" {}) := by
  have h := C3_ingredient_round_trip "lok" "løk" (some "onion") "vegetable" {}
    (by decide) (by decide)
  rw [h]
  rfl

/-! ### Claim C2 -/

theorem mealTypeValue_round (mt : Option MealType) :
    MealType.ofString (mealTypeValue mt) = mt := by
  cases mt with
  | none => decide
  | some m => exact mealtype_ofString_value m

theorem buildRecipeIngredients_dicts (l : List RecipeIngredientDict) :
    buildRecipeIngredients (l.map RecipeIngredientArg.dict)
      = l.map RecipeIngredient.from_dict := by
  unfold buildRecipeIngredients
  rw [buildRecipeIngredients_from]
  rfl

theorem buildSteps_dicts (l : List RecipeStepDict) :
    buildSteps (l.map StepArg.dict) = l.map RecipeStep.from_dict := by
  unfold buildSteps
  rw [buildSteps_from]
  rfl

theorem buildPhotos_dicts (l : List RecipePhotoDict) :
    buildPhotos (l.map PhotoArg.dict) = l.map RecipePhoto.from_dict := by
  unfold buildPhotos
  rw [buildPhotos_from]
  rfl

theorem buildRecipeIngredients_unresolved (args : List RecipeIngredientArg)
    (h : ∀ a ∈ args, a.hydrated = none) :
    ∀ ri ∈ buildRecipeIngredients args, ri.ingredient = none := by
  have general : ∀ (args : List RecipeIngredientArg)
      (acc : List RecipeIngredient),
      (∀ a ∈ args, a.hydrated = none) → (∀ ri ∈ acc, ri.ingredient = none) →
      ∀ ri ∈ List.foldl recipeIngredientStep acc args, ri.ingredient = none := by
    intro args
    induction args with
    | nil =>
      intro acc _ hacc
      simpa using hacc
    | cons a rest ih =>
      intro acc hargs hacc
      rw [List.foldl_cons]
      apply ih
      · intro b hb
        exact hargs b (List.mem_cons_of_mem _ hb)
      · intro ri hri
        cases a with
        | dict d =>
          unfold recipeIngredientStep at hri
          rcases List.mem_append.mp hri with hmem | hmem
          · exact hacc ri hmem
          · have : ri = RecipeIngredient.from_dict d := by simpa using hmem
            rw [this]
            rfl
        | obj r =>
          unfold recipeIngredientStep at hri
          rcases List.mem_append.mp hri with hmem | hmem
          · exact hacc ri hmem
          · have hrir : ri = r := by simpa using hmem
            rw [hrir]
            have := hargs (.obj r) (List.mem_cons_self _ _)
            simpa [RecipeIngredientArg.hydrated] using this
  intro ri hri
  exact general args [] h (by intro b hb; cases hb) ri hri

theorem map_from_to_dict_of_unresolved (l : List RecipeIngredient)
    (h : ∀ ri ∈ l, ri.ingredient = none) :
    l.map (fun ri => RecipeIngredient.from_dict ri.to_dict) = l := by
  induction l with
  | nil => rfl
  | cons ri rest ih =>
    rw [List.map_cons, ih (fun b hb => h b (List.mem_cons_of_mem _ hb))]
    have hnone := h ri (List.mem_cons_self _ _)
    show RecipeIngredient.from_dict ri.to_dict :: rest = ri :: rest
    rw [recipe_ingredient_from_dict_to_dict]
    cases ri with
    | mk iid q u p n o g ing =>
      simp only at hnone
      subst hnone
      rfl

theorem map_step_from_to (l : List RecipeStep) :
    l.map (fun s => RecipeStep.from_dict s.to_dict) = l := by
  have hf : (fun s => RecipeStep.from_dict s.to_dict) = (id : RecipeStep → RecipeStep) :=
    funext fun s => step_from_dict_to_dict s
  rw [hf, List.map_id]

theorem map_photo_from_to (l : List RecipePhoto) :
    l.map (fun p => RecipePhoto.from_dict p.to_dict) = l := by
  have hf : (fun p => RecipePhoto.from_dict p.to_dict) = (id : RecipePhoto → RecipePhoto) :=
    funext fun p => photo_from_dict_to_dict p
  rw [hf, List.map_id]

theorem C2_core (rid name_no freshId freshId2 : String) (now now2 : Datetime)
    (kwargs : RecipeKwargs) (hno : name_no ≠ "") (hrid : rid ≠ "")
    (hhyd : ∀ a ∈ kwargs.recipe_ingredients, a.hydrated = none) :
    ∃ x, Recipe.init (some rid) name_no freshId now kwargs = .ok x
      ∧ Recipe.from_dict freshId2 now2 x.to_dict
        = .ok { x with names :=
            { x.names with
                en := ""
                description_no := ""
                description_en := "" } } := by
  have hLunres :=
    buildRecipeIngredients_unresolved kwargs.recipe_ingredients hhyd
  unfold Recipe.init
  rw [if_neg hno]
  rw [show (match some rid with
      | some s => if s = "" then freshId else s
      | none => freshId) = rid from by simp [hrid]]
  refine ⟨_, rfl, ?_⟩
  simp only [Recipe.from_dict, Recipe.to_dict]
  rw [if_neg hno]
  simp only [Recipe.init]
  rw [if_neg hno]
  rw [if_neg hrid]
  simp only [buildRecipeIngredients_dicts, buildSteps_dicts, buildPhotos_dicts]
  simp only [List.map_map, Function.comp_def]
  simp only [map_from_to_dict_of_unresolved _ hLunres, map_step_from_to,
    map_photo_from_to]
  simp only [difficulty_ofString_value, Option.getD_some, mealTypeValue_round,
    resolveTimestamp, datetime_fromisoformat_isoformat, parseSeasonList_value]

/-- **C2 counterexample.** A recipe constructed with `name_en="Soup"` does not
round-trip: `Recipe.from_dict` filters the whole `names` entry out of the
kwargs forwarded to the constructor, so the English name (and both
descriptions) reset to `""`, contradicting "reproduces every field of x
exactly — including the full names map". -/
theorem C2_counterexample :
    (Recipe.init none "Suppe" "rid-1" 0 { name_en := "Soup" }).map
        (fun x => (x.names.en,
          (Recipe.from_dict "rid-2" 0 x.to_dict).map (fun y => y.names.en)))
      = .ok ("Soup", .ok "") := by
  rfl

/-- **C2 (amended).** For every `Recipe` built by the constructor from
arbitrary arguments (non-empty Norwegian name, non-empty generated id, and no
hydrated ingredient references — serialization drops those),
`from_dict(to_dict(x))` reproduces every field of `x` exactly — id, nested
recipe ingredients, preparation steps, photos, enum fields serialized as
string values, `version` and both timestamps — **except** the English name
and the two descriptions in the names map, which reset to `""` (the `names`
entry is excluded from the forwarded kwargs). -/
theorem C2_recipe_round_trip (recipe_id : Option String)
    (name_no freshId freshId2 : String) (now now2 : Datetime)
    (kwargs : RecipeKwargs) (hno : name_no ≠ "") (hfid : freshId ≠ "")
    (hhyd : ∀ a ∈ kwargs.recipe_ingredients, a.hydrated = none) :
    ∃ x, Recipe.init recipe_id name_no freshId now kwargs = .ok x
      ∧ Recipe.from_dict freshId2 now2 x.to_dict
        = .ok { x with names :=
            { x.names with
                en := ""
                description_no := ""
                description_en := "" } } := by
  cases recipe_id with
  | none =>
    have heq : Recipe.init none name_no freshId now kwargs
        = Recipe.init (some freshId) name_no freshId now kwargs := by
      unfold Recipe.init
      rw [if_neg hno, if_neg hno]
      dsimp only
      rw [if_neg hfid]
    rw [heq]
    exact C2_core freshId name_no freshId freshId2 now now2 kwargs hno hfid hhyd
  | some s =>
    by_cases hs : s = ""
    · subst hs
      have heq : Recipe.init (some "") name_no freshId now kwargs
          = Recipe.init (some freshId) name_no freshId now kwargs := by
        unfold Recipe.init
        rw [if_neg hno, if_neg hno]
        dsimp only
        rw [if_pos rfl, if_neg hfid]
      rw [heq]
      exact C2_core freshId name_no freshId freshId2 now now2 kwargs hno hfid hhyd
    · exact C2_core s name_no freshId freshId2 now now2 kwargs hno hs hhyd

/-- Witness for **C2 (amended)** at a concrete recipe: the round trip equals
the original with the English name and descriptions cleared. -/
theorem C2_recipe_round_trip_witness :
    (Recipe.init (some "r7") "Suppe" "f1" 5 {}).map
        (fun x => Recipe.from_dict "f2" 6 x.to_dict)
      = (Recipe.init (some "r7") "Suppe" "f1" 5 {}).map
          (fun x => .ok { x with names :=
            { x.names with
                en := ""
                description_no := ""
                description_en := "" } }) := by
  obtain ⟨x, hx, hrt⟩ := C2_recipe_round_trip (some "r7") "Suppe" "f1" "f2" 5 6
    {} (by decide) (by decide) (by intro a ha; cases ha)
  rw [hx]
  simp only [Except.map]
  rw [hrt]

/-! ### Claim C6 -/

theorem absGap (v a b : ℚ) (h : |v - b| < 1/100)
    (hdist : a + 2/100 ≤ b ∨ b + 2/100 ≤ a) : ¬ |v - a| < 1/100 := by
  intro hcon
  rw [abs_sub_lt_iff] at h hcon
  rcases hdist with hd | hd <;> linarith [h.1, h.2, hcon.1, hcon.2]

/-- **C6.** `format_scaled_quantity` returns the original string unchanged
when the quantity is unparsable or parses to exactly zero, and otherwise
formats the parsed value times the factor with `format_number` and reattaches
the original unit text; `format_number` renders values under 0.01 as `"0"`,
values within 0.01 of a common fraction as the fraction text, values within
0.01 of a whole number as the integer.  Concretely,
`format_scaled_quantity "2 ss" 0.5 = "1 ss"`,
`format_scaled_quantity "1 dl" 1.5 = "1.5 dl"`, a value of exactly 0.5
renders as `"1/2"`, and `"etter smak"` is returned unchanged for every
factor. -/
theorem C6_format_scaled_quantity :
    (∀ (s : String) (factor : ℚ), parse_quantity s = none →
      format_scaled_quantity s factor = s)
    ∧ (∀ (s : String) (factor : ℚ), parse_quantity s = some 0 →
      format_scaled_quantity s factor = s)
    ∧ (∀ (s : String) (factor q : ℚ), parse_quantity s = some q → q ≠ 0 →
      format_scaled_quantity s factor =
        (if extract_unit s ≠ "" then
          format_number (q * factor) ++ " " ++ extract_unit s
         else format_number (q * factor)))
    ∧ (∀ v : ℚ, v < 1/100 → format_number v = "0")
    ∧ (∀ v : ℚ, ¬ v < 1/100 → |v - 1/8| < 1/100 → format_number v = "1/8")
    ∧ (∀ v : ℚ, ¬ v < 1/100 → |v - 1/4| < 1/100 → format_number v = "1/4")
    ∧ (∀ v : ℚ, ¬ v < 1/100 → |v - 333/1000| < 1/100 →
        format_number v = "1/3")
    ∧ (∀ v : ℚ, ¬ v < 1/100 → |v - 1/2| < 1/100 → format_number v = "1/2")
    ∧ (∀ v : ℚ, ¬ v < 1/100 → |v - 667/1000| < 1/100 →
        format_number v = "2/3")
    ∧ (∀ v : ℚ, ¬ v < 1/100 → |v - 3/4| < 1/100 → format_number v = "3/4")
    ∧ (∀ v : ℚ, ¬ v < 1/100 →
        (∀ fr ∈ commonFractionValues, ¬ |v - fr| < 1/100) →
        |v - (roundHalfEven v : ℚ)| < 1/100 →
        format_number v = toString (roundHalfEven v))
    ∧ format_scaled_quantity "2 ss" (1/2) = "1 ss"
    ∧ format_scaled_quantity "1 dl" (3/2) = "1.5 dl"
    ∧ format_number (1/2) = "1/2"
    ∧ (∀ factor : ℚ, format_scaled_quantity "etter smak" factor
        = "etter smak") := by
  have hfmt_half : format_number (1/2) = "1/2" := by
    unfold format_number
    rw [if_neg (by norm_num)]
    rw [if_neg (by rw [abs_sub_lt_iff]; norm_num)]
    rw [if_neg (by rw [abs_sub_lt_iff]; norm_num)]
    rw [if_neg (by rw [abs_sub_lt_iff]; norm_num)]
    rw [if_pos (by rw [abs_sub_lt_iff]; norm_num)]
  refine ⟨?_, ?_, ?_, ?_, ?_, ?_, ?_, ?_, ?_, ?_, ?_, ?_, ?_, hfmt_half, ?_⟩
  · intro s factor h
    unfold format_scaled_quantity
    rw [h]
  · intro s factor h
    unfold format_scaled_quantity
    rw [h]
    dsimp only
    rw [if_pos rfl]
  · intro s factor q h hq
    unfold format_scaled_quantity
    rw [h]
    dsimp only
    rw [if_neg hq]
  · intro v h
    unfold format_number
    rw [if_pos h]
  · intro v h0 h
    unfold format_number
    rw [if_neg h0, if_pos h]
  · intro v h0 h
    unfold format_number
    rw [if_neg h0]
    rw [if_neg (absGap v (1/8) (1/4) h (by norm_num))]
    rw [if_pos h]
  · intro v h0 h
    unfold format_number
    rw [if_neg h0]
    rw [if_neg (absGap v (1/8) (333/1000) h (by norm_num))]
    rw [if_neg (absGap v (1/4) (333/1000) h (by norm_num))]
    rw [if_pos h]
  · intro v h0 h
    unfold format_number
    rw [if_neg h0]
    rw [if_neg (absGap v (1/8) (1/2) h (by norm_num))]
    rw [if_neg (absGap v (1/4) (1/2) h (by norm_num))]
    rw [if_neg (absGap v (333/1000) (1/2) h (by norm_num))]
    rw [if_pos h]
  · intro v h0 h
    unfold format_number
    rw [if_neg h0]
    rw [if_neg (absGap v (1/8) (667/1000) h (by norm_num))]
    rw [if_neg (absGap v (1/4) (667/1000) h (by norm_num))]
    rw [if_neg (absGap v (333/1000) (667/1000) h (by norm_num))]
    rw [if_neg (absGap v (1/2) (667/1000) h (by norm_num))]
    rw [if_pos h]
  · intro v h0 h
    unfold format_number
    rw [if_neg h0]
    rw [if_neg (absGap v (1/8) (3/4) h (by norm_num))]
    rw [if_neg (absGap v (1/4) (3/4) h (by norm_num))]
    rw [if_neg (absGap v (333/1000) (3/4) h (by norm_num))]
    rw [if_neg (absGap v (1/2) (3/4) h (by norm_num))]
    rw [if_neg (absGap v (667/1000) (3/4) h (by norm_num))]
    rw [if_pos h]
  · intro v h0 hfr h
    unfold format_number
    rw [if_neg h0]
    rw [if_neg (hfr (1/8) (by simp [commonFractionValues]))]
    rw [if_neg (hfr (1/4) (by simp [commonFractionValues]))]
    rw [if_neg (hfr (333/1000) (by simp [commonFractionValues]))]
    rw [if_neg (hfr (1/2) (by simp [commonFractionValues]))]
    rw [if_neg (hfr (667/1000) (by simp [commonFractionValues]))]
    rw [if_neg (hfr (3/4) (by simp [commonFractionValues]))]
    rw [if_pos h]
  · unfold format_scaled_quantity
    rw [show parse_quantity "2 ss" = some 2 from by
      simp +decide [parse_quantity, pyStrip, pyStripList, pyFloat?,
        parseDigits?, pyDigitGroup, digitsVal, pyIsSpace, isQuantityChar]]
    dsimp only
    rw [if_neg (by norm_num)]
    rw [show extract_unit "2 ss" = "ss" from by decide]
    rw [show format_number ((2 : ℚ) * (1/2)) = "1" from by
      rw [show ((2 : ℚ) * (1/2)) = 1 from by norm_num]
      unfold format_number
      rw [if_neg (by norm_num)]
      rw [if_neg (by rw [abs_sub_lt_iff]; norm_num)]
      rw [if_neg (by rw [abs_sub_lt_iff]; norm_num)]
      rw [if_neg (by rw [abs_sub_lt_iff]; norm_num)]
      rw [if_neg (by rw [abs_sub_lt_iff]; norm_num)]
      rw [if_neg (by rw [abs_sub_lt_iff]; norm_num)]
      rw [if_neg (by rw [abs_sub_lt_iff]; norm_num)]
      rw [show roundHalfEven (1 : ℚ) = 1 from by norm_num [roundHalfEven]]
      rw [if_pos (by rw [abs_sub_lt_iff]; norm_num)]
      decide]
    decide
  · unfold format_scaled_quantity
    rw [show parse_quantity "1 dl" = some 1 from by
      simp +decide [parse_quantity, pyStrip, pyStripList, pyFloat?,
        parseDigits?, pyDigitGroup, digitsVal, pyIsSpace, isQuantityChar]]
    dsimp only
    rw [if_neg (by norm_num)]
    rw [show extract_unit "1 dl" = "dl" from by decide]
    rw [show format_number ((1 : ℚ) * (3/2)) = "1.5" from by
      rw [show ((1 : ℚ) * (3/2)) = 3/2 from by norm_num]
      unfold format_number
      rw [if_neg (by norm_num)]
      rw [if_neg (by rw [abs_sub_lt_iff]; norm_num)]
      rw [if_neg (by rw [abs_sub_lt_iff]; norm_num)]
      rw [if_neg (by rw [abs_sub_lt_iff]; norm_num)]
      rw [if_neg (by rw [abs_sub_lt_iff]; norm_num)]
      rw [if_neg (by rw [abs_sub_lt_iff]; norm_num)]
      rw [if_neg (by rw [abs_sub_lt_iff]; norm_num)]
      rw [show roundHalfEven (3/2 : ℚ) = 2 from by norm_num [roundHalfEven]]
      rw [if_neg (by rw [abs_sub_lt_iff]; norm_num)]
      unfold formatOneDecimal
      rw [show roundHalfEven ((3/2 : ℚ) * 10) = 15 from by
        norm_num [roundHalfEven]]
      decide]
    decide
  · intro factor
    unfold format_scaled_quantity
    rw [show parse_quantity "etter smak" = none from by
      simp +decide [parse_quantity, pyStrip, pyStripList, pyIsSpace,
        isQuantityChar]]

/-- Witness for **C6** at further concrete inputs: a quantity of exactly `0`
is a no-op for every factor, and an unparsable Norwegian phrase is returned
unchanged (both obtained by applying the theorem's clauses). -/
theorem C6_format_scaled_quantity_witness :
    parse_quantity "0 stk" = some 0
    ∧ format_scaled_quantity "0 stk" 3 = "0 stk"
    ∧ parse_quantity "en klype salt" = none
    ∧ format_scaled_quantity "en klype salt" 7 = "en klype salt" := by
  have hp : parse_quantity "0 stk" = some 0 := by
    simp +decide [parse_quantity, pyStrip, pyStripList, pyFloat?, parseDigits?,
      pyDigitGroup, digitsVal, pyIsSpace, isQuantityChar]
  have hn : parse_quantity "en klype salt" = none := by
    simp +decide [parse_quantity, pyStrip, pyStripList, pyIsSpace,
      isQuantityChar]
  exact ⟨hp, C6_format_scaled_quantity.2.1 "0 stk" 3 hp, hn,
    C6_format_scaled_quantity.1 "en klype salt" 7 hn⟩

/-! ### Claim C7 -/

theorem servingsFold_spec (n : ℤ) (k : ℕ) :
    (List.range k).foldl (fun st j => servingsOptionStep n st (j + 1)) ([], 0)
      = ((List.range k).map (fun j =>
          (((j + 1 : ℕ) : ℚ) / (n : ℚ),
            toString (j + 1) ++ " servings"
              ++ (if ((j + 1 : ℕ) : ℤ) = n then " (original)" else ""))),
        if 1 ≤ n ∧ n ≤ (k : ℤ) then (n - 1).toNat else 0) := by
  induction k with
  | zero =>
    simp only [List.range_zero, List.foldl_nil, List.map_nil]
    rw [if_neg (by omega)]
  | succ k ih =>
    rw [List.range_succ, List.foldl_append, List.map_append, ih]
    rw [List.foldl_cons, List.foldl_nil]
    unfold servingsOptionStep
    by_cases hk : ((k + 1 : ℕ) : ℤ) = n
    · rw [if_pos hk]
      simp only [List.map_cons, List.map_nil, List.length_map,
        List.length_range, Prod.mk.injEq]
      constructor
      · rw [if_pos hk]
      · rw [if_pos (by omega)]
        omega
    · rw [if_neg hk]
      simp only [List.map_cons, List.map_nil, Prod.mk.injEq]
      constructor
      · rw [if_neg hk]
        simp
      · split_ifs with h1 h2 h2 <;> omega

theorem format_number_quarter : format_number (1/4) = "1/4" := by
  unfold format_number
  rw [if_neg (by norm_num)]
  rw [if_neg (by rw [abs_sub_lt_iff]; norm_num)]
  rw [if_pos (by rw [abs_sub_lt_iff]; norm_num)]

theorem format_number_half2 : format_number (1/2) = "1/2" := by
  unfold format_number
  rw [if_neg (by norm_num)]
  rw [if_neg (by rw [abs_sub_lt_iff]; norm_num)]
  rw [if_neg (by rw [abs_sub_lt_iff]; norm_num)]
  rw [if_neg (by rw [abs_sub_lt_iff]; norm_num)]
  rw [if_pos (by rw [abs_sub_lt_iff]; norm_num)]

theorem format_number_three_quarters : format_number (3/4) = "3/4" := by
  unfold format_number
  rw [if_neg (by norm_num)]
  rw [if_neg (by rw [abs_sub_lt_iff]; norm_num)]
  rw [if_neg (by rw [abs_sub_lt_iff]; norm_num)]
  rw [if_neg (by rw [abs_sub_lt_iff]; norm_num)]
  rw [if_neg (by rw [abs_sub_lt_iff]; norm_num)]
  rw [if_neg (by rw [abs_sub_lt_iff]; norm_num)]
  rw [if_pos (by rw [abs_sub_lt_iff]; norm_num)]

theorem ladderOptions_eval :
    ladderOptions
      = [(1/4, "1/4x"), (1/2, "1/2x"), (3/4, "3/4x"), (1, "1x (original)"),
         (3/2, "1x"), (2, "2x"), (3, "3x"), (4, "4x"), (6, "6x"), (8, "8x"),
         (10, "10x"), (12, "12x")] := by
  unfold ladderOptions scaleLadder
  norm_num [format_number_quarter, format_number_half2,
    format_number_three_quarters]
  refine ⟨by decide, by decide, by decide, by decide, by decide, by decide,
    by decide, by decide, by decide, by decide, by decide⟩

/-- **C7.** `get_scaling_options`: when the servings field is truthy and
parses as a positive integer `n`, the result is exactly the 12 options for
target servings 1..12, each with scale factor `target / n`, the option whose
target equals `n` labeled with `" (original)"`, the default index `n - 1`
when `1 ≤ n ≤ 12` (and 0 otherwise, when no option matches), and the label
format `"Scale to:"`; in every other case (absent/falsy servings, unparsable
servings string, or a non-positive parsed value) the result is the fixed
multiplier ladder `[0.25, 0.5, 0.75, 1, 1.5, 2, 3, 4, 6, 8, 10, 12]` with
the `"1x (original)"` entry at default index 3. -/
theorem C7_scaling_options :
    (∀ (s : ServingsValue) (n : ℤ), s.truthy = true →
      pyInt? (pyStrip s.toStr) = some n → 0 < n →
      get_scaling_options s
        = ((List.range 12).map (fun j =>
            (((j + 1 : ℕ) : ℚ) / (n : ℚ),
              toString (j + 1) ++ " servings"
                ++ (if ((j + 1 : ℕ) : ℤ) = n then " (original)" else ""))),
          (if 1 ≤ n ∧ n ≤ 12 then (n - 1).toNat else 0), "Scale to:"))
    ∧ (∀ s : ServingsValue,
        (if s.truthy then pyInt? (pyStrip s.toStr) else none) = none →
        get_scaling_options s = (ladderOptions, 3, "Scale recipe:"))
    ∧ (∀ (s : ServingsValue) (n : ℤ), s.truthy = true →
        pyInt? (pyStrip s.toStr) = some n → ¬ 0 < n →
        get_scaling_options s = (ladderOptions, 3, "Scale recipe:"))
    ∧ ladderOptions
      = [(1/4, "1/4x"), (1/2, "1/2x"), (3/4, "3/4x"), (1, "1x (original)"),
         (3/2, "1x"), (2, "2x"), (3, "3x"), (4, "4x"), (6, "6x"), (8, "8x"),
         (10, "10x"), (12, "12x")]
    ∧ ladderOptions.map Prod.fst = scaleLadder := by
  refine ⟨?_, ?_, ?_, ladderOptions_eval, ?_⟩
  · intro s n ht hparse hpos
    unfold get_scaling_options
    rw [if_pos ht, hparse]
    dsimp only
    rw [if_pos hpos]
    rw [servingsFold_spec n 12]
    norm_num
  · intro s h
    unfold get_scaling_options
    rw [h]
  · intro s n ht hparse hn
    unfold get_scaling_options
    rw [if_pos ht, hparse]
    dsimp only
    rw [if_neg hn]
  · rw [ladderOptions_eval]
    unfold scaleLadder
    norm_num

/-- Witness for **C7**: a recipe with `servings=4` gets 12 options, default
index 3 labeled `"4 servings (original)"`; an absent servings value gets the
multiplier ladder with default 3. -/
theorem C7_scaling_options_witness :
    (get_scaling_options (.int 4)).2.1 = 3
    ∧ ((get_scaling_options (.int 4)).1.getD 3 (0, "")).2
      = "4 servings (original)"
    ∧ (get_scaling_options (.int 4)).1.length = 12
    ∧ (get_scaling_options (.int 4)).2.2 = "Scale to:"
    ∧ get_scaling_options .absent = (ladderOptions, 3, "Scale recipe:") := by
  have h := C7_scaling_options.1 (.int 4) 4 (by decide) (by decide)
    (by decide)
  refine ⟨?_, ?_, ?_, ?_, C7_scaling_options.2.1 .absent rfl⟩
  · rw [h]
    norm_num
    decide
  · rw [h]
    decide
  · rw [h]
    simp
  · rw [h]

end ChefsAssistant
